import Mathlib

/-!
# twofactor.c: the TLI packet codec and the two-exchange session

A shallow embedding of `src/twofactor.c` (WIN32 build).  Bytes are natural
numbers below 256, the unsigned value of a C `char`.  The array `tli_stream`
is a list of bytes; a store outside the array, which the C program performs
unchecked (undefined behaviour), is reported as `Fault.outOfBounds`.
The socket library is not part of the program: the value each call returns
is taken from `Env`, and the calls made are recorded in a trace.
-/

namespace TwoFactor

/-! ## Character tables -/

/-- Table `a2e` of `ASCIItoEBCDIC` (lines 506-522). -/
def a2e : List Nat :=
  [  0,  1,  2,  3, 55, 45, 46, 47, 22,  5, 37, 11, 12, 13, 14, 15,
    16, 17, 18, 19, 60, 61, 50, 38, 24, 25, 63, 39, 28, 29, 30, 31,
    64, 79,127,123, 91,108, 80,125, 77, 93, 92, 78,107, 96, 75, 97,
   240,241,242,243,244,245,246,247,248,249,122, 94, 76,126,110,111,
   124,193,194,195,196,197,198,199,200,201,209,210,211,212,213,214,
   215,216,217,226,227,228,229,230,231,232,233, 74,224, 90, 95,109,
   121,129,130,131,132,133,134,135,136,137,145,146,147,148,149,150,
   151,152,153,162,163,164,165,166,167,168,169,192,106,208,161,  7,
    32, 33, 34, 35, 36, 21,  6, 23, 40, 41, 42, 43, 44,  9, 10, 27,
    48, 49, 26, 51, 52, 53, 54,  8, 56, 57, 58, 59,  4, 20, 62,225,
    65, 66, 67, 68, 69, 70, 71, 72, 73, 81, 82, 83, 84, 85, 86, 87,
    88, 89, 98, 99,100,101,102,103,104,105,112,113,114,115,116,117,
   118,119,120,128,138,139,140,141,142,143,144,154,155,156,157,158,
   159,160,170,171,172,173,174,175,176,177,178,179,180,181,182,183,
   184,185,186,187,188,189,190,191,202,203,204,205,206,207,218,219,
   220,221,222,223,234,235,236,237,238,239,250,251,252,253,254,255]

/-- Table `e2a` of `EBCDICtoASCII` (lines 532-548). -/
def e2a : List Nat :=
  [  0,  1,  2,  3,156,  9,134,127,151,141,142, 11, 12, 13, 14, 15,
    16, 17, 18, 19,157,133,  8,135, 24, 25,146,143, 28, 29, 30, 31,
   128,129,130,131,132, 10, 23, 27,136,137,138,139,140,  5,  6,  7,
   144,145, 22,147,148,149,150,  4,152,153,154,155, 20, 21,158, 26,
    32,160,161,162,163,164,165,166,167,168, 91, 46, 60, 40, 43, 33,
    38,169,170,171,172,173,174,175,176,177, 93, 36, 42, 41, 59, 94,
    45, 47,178,179,180,181,182,183,184,185,124, 44, 37, 95, 62, 63,
   186,187,188,189,190,191,192,193,194, 96, 58, 35, 64, 39, 61, 34,
   195, 97, 98, 99,100,101,102,103,104,105,196,197,198,199,200,201,
   202,106,107,108,109,110,111,112,113,114,203,204,205,206,207,208,
   209,126,115,116,117,118,119,120,121,122,210,211,212,213,214,215,
   216,217,218,219,220,221,222,223,224,225,226,227,228,229,230,231,
   123, 65, 66, 67, 68, 69, 70, 71, 72, 73,232,233,234,235,236,237,
   125, 74, 75, 76, 77, 78, 79, 80, 81, 82,238,239,240,241,242,243,
    92,159, 83, 84, 85, 86, 87, 88, 89, 90,244,245,246,247,248,249,
    48, 49, 50, 51, 52, 53, 54, 55, 56, 57,250,251,252,253,254,255]

/-- Function `ASCIItoEBCDIC` (lines 504-524): `return a2e[c]`.  The parameter is an
`unsigned char`, so the argument is first reduced modulo 256. -/
def ASCIItoEBCDIC (c : Nat) : Nat := a2e.getD (c % 256) 0

/-- Function `EBCDICtoASCII` (lines 530-550): `return e2a[c]`. -/
def EBCDICtoASCII (c : Nat) : Nat := e2a.getD (c % 256) 0

/-! ## Memory model -/

/-- What goes wrong when the program stores outside `tli_stream`: the C code has
no bounds check, so the store happens and the behaviour is undefined. -/
inductive Fault where
  | outOfBounds (index : Nat)
  deriving DecidableEq

deriving instance DecidableEq for Except

/-- The assignment `a[i] = v` on a `char` array `a`. -/
def store (a : List Nat) (i v : Nat) : Except Fault (List Nat) :=
  if i < a.length then .ok (a.set i v) else .error (.outOfBounds i)

/-- The pair of statements `tli_stream[tli_index] = v; tli_index++;` (and
`*hdr = v; hdr++;`): the state is the array together with the index. -/
def put (s : List Nat × Nat) (v : Nat) : Except Fault (List Nat × Nat) := do
  let a ← store s.1 s.2 v
  pure (a, s.2 + 1)

/-- The two bytes that `htons((short) n)` leaves in memory, most significant
first; the cast to `short` keeps the low 16 bits of `n`. -/
def htons (n : Nat) : List Nat := [n % 65536 / 256, n % 256]

/-- The statements `lPtr = (short *) &tli_stream[i]; *lPtr = htons((short) n);`. -/
def store_short (a : List Nat) (i n : Nat) : Except Fault (List Nat) := do
  let a ← store a i (n % 65536 / 256)
  store a (i + 1) (n % 256)

/-- Code of a character constant, as in `'F'`. -/
def chr (c : Char) : Nat := c.toNat

/-- Characters of a string constant or of a caller's C string, without the
terminating NUL; `strlen` of the string is the length of this list. -/
def cstr (s : String) : List Nat := s.toList.map Char.toNat

/-! ## clear_array and build_header -/

/-- The loop of `clear_array` with `n` iterations left: `*c = 'F'; c++;`. -/
def clear_loop : Nat → List Nat × Nat → Except Fault (List Nat × Nat)
  | 0, s => pure s
  | n + 1, s => do
    let s ← put s (chr 'F')
    clear_loop n s

/-- Function `clear_array` (lines 558-566): one hundred stores of `'F'`. -/
def clear_array (c : List Nat) : Except Fault (List Nat) := do
  let s ← clear_loop 100 (c, 0)
  pure s.1

/-- The loop of `build_header` over the transaction id with `n` iterations
left: `*hdr = ASCIItoEBCDIC(*tid); hdr++; tid++;`. -/
def tid_loop : Nat → List Nat × Nat → List Nat → Except Fault (List Nat × Nat)
  | 0, s, _ => pure s
  | n + 1, s, tid => do
    let s ← put s (ASCIItoEBCDIC (tid.headD 0))
    tid_loop n s tid.tail

/-- Function `build_header` (lines 460-495).  The pointer `hdr` is kept as its
offset from the starting address `saddr`; the value returned is that
offset, `(int) hdr - saddr`. -/
def build_header (hdr : List Nat) (tid : List Nat) (c : Nat) :
    Except Fault (List Nat × Nat) := do
  let s := (hdr, 0 + 1 + 1)
  let s ← put s (ASCIItoEBCDIC (chr 'O'))
  let s ← put s (ASCIItoEBCDIC (chr 'S'))
  let s ← tid_loop 6 s tid
  let s ← put s (ASCIItoEBCDIC (chr 'S'))
  let s ← put s (ASCIItoEBCDIC (chr 'E'))
  let s ← put s (ASCIItoEBCDIC (chr '0'))
  put s (ASCIItoEBCDIC c)

/-! ## Packet construction inside twofactorprocessing -/

/-- The loop `for (x = 0; x < strlen(text); x++)` with body
`tli_stream[tli_index] = ASCIItoEBCDIC(text[x]); tli_index++;`
(lines 218-222, 231-235, 284-288, 314-318). -/
def text_loop (s : List Nat × Nat) : List Nat → Except Fault (List Nat × Nat)
  | [] => pure s
  | c :: text => do
    let s ← put s (ASCIItoEBCDIC c)
    text_loop s text

/-- The block written four times in `twofactorprocessing` (lines 215-224,
228-237, 281-290, 311-320): remember `tmp_index`, step over two bytes, copy the
translated text, then store `htons((short) strlen(text))` at `tmp_index`. -/
def text_field (s : List Nat × Nat) (text : List Nat) :
    Except Fault (List Nat × Nat) := do
  let tmp_index := s.2
  let s := (s.1, s.2 + 1 + 1)
  let s ← text_loop s text
  let a ← store_short s.1 tmp_index text.length
  pure (a, s.2)

/-- The constant `char *sysID = "NCTLI"` (line 112). -/
def sysID : List Nat := cstr "NCTLI"

/-- Lines 239-251: the unused EXIT45 password and the direction id. -/
def handshake_trailer (s : List Nat × Nat) : Except Fault (List Nat × Nat) := do
  let s ← put s 0
  let s ← put s 0
  let s ← put s 0
  let s ← put s 1
  put s (ASCIItoEBCDIC (chr '1'))

/-- Lines 209-251: the handshake packet before its length is written. -/
def handshake_body (tli_stream transID appID : List Nat) :
    Except Fault (List Nat × Nat) := do
  let a ← clear_array tli_stream
  let s ← build_header a transID (chr '0')
  let s ← text_field s appID
  let s ← text_field s sysID
  handshake_trailer s

/-- Lines 253-255 and 409-411: `lPtr = (short *) &tli_stream[0];`
`*lPtr = htons((short) tli_index);`. -/
def length_patch (s : List Nat × Nat) : Except Fault (List Nat × Nat) := do
  let a ← store_short s.1 0 s.2
  pure (a, s.2)

/-- Lines 209-255: the array and `tli_index` when the handshake is sent. -/
def handshake_packet (tli_stream transID appID : List Nat) :
    Except Fault (List Nat × Nat) := do
  let s ← handshake_body tli_stream transID appID
  length_patch s

/-- Lines 292-308: remote user, current password, token challenge (not used). -/
def auth_unused (s : List Nat × Nat) : Except Fault (List Nat × Nat) := do
  let s ← put s 0
  let s ← put s 0
  let s ← put s 0
  let s ← put s 0
  let s ← put s 0
  put s 0

/-- Lines 322-336: token serial number (not used) and token type. -/
def auth_token_type (s : List Nat × Nat) : Except Fault (List Nat × Nat) := do
  let s ← put s 0
  let s ← put s 0
  let s ← put s 0
  let s ← put s 2
  let s ← put s 0
  put s 11

/-- Lines 338-407: new token challenge, new token response, PIN (not used),
requestor id, terminal, target (not used), target supplementary, and the
closing zero. -/
def auth_trailer (s : List Nat × Nat) : Except Fault (List Nat × Nat) := do
  let s ← put s 0
  let s ← put s 0
  let s ← put s 0
  let s ← put s 0
  let s ← put s 0
  let s ← put s 0
  let s ← put s 0
  let s ← put s 3
  let s ← put s (ASCIItoEBCDIC (chr 'T'))
  let s ← put s (ASCIItoEBCDIC (chr 'C'))
  let s ← put s (ASCIItoEBCDIC (chr 'P'))
  let s ← put s 0
  let s ← put s 7
  let s ← put s (ASCIItoEBCDIC (chr 'W'))
  let s ← put s (ASCIItoEBCDIC (chr 'E'))
  let s ← put s (ASCIItoEBCDIC (chr 'B'))
  let s ← put s (ASCIItoEBCDIC (chr 'T'))
  let s ← put s (ASCIItoEBCDIC (chr 'E'))
  let s ← put s (ASCIItoEBCDIC (chr 'R'))
  let s ← put s (ASCIItoEBCDIC (chr 'M'))
  let s ← put s 0
  let s ← put s 0
  let s ← put s 0
  let s ← put s 3
  let s ← put s (ASCIItoEBCDIC (chr 'T'))
  let s ← put s (ASCIItoEBCDIC (chr 'L'))
  let s ← put s (ASCIItoEBCDIC (chr 'I'))
  put s 0

/-- Lines 275-407: the authentication packet before its length is written. -/
def auth_body (tli_stream transID userID secureID : List Nat) :
    Except Fault (List Nat × Nat) := do
  let a ← clear_array tli_stream
  let s ← build_header a transID (chr '3')
  let s ← text_field s userID
  let s ← auth_unused s
  let s ← text_field s secureID
  let s ← auth_token_type s
  auth_trailer s

/-- Lines 275-411: the array and `tli_index` when the request is sent. -/
def auth_packet (tli_stream transID userID secureID : List Nat) :
    Except Fault (List Nat × Nat) := do
  let s ← auth_body tli_stream transID userID secureID
  length_patch s

/-! ## The session -/

/-- Values handed back by the library calls of one invocation.  `transID` holds
the six characters produced by the `rand`/`itoa` loop (lines 136-138).  A
receive is `none` when `recv` returns a negative value, and otherwise the
bytes it delivered, whose number is the value `recv` returned. -/
structure Env where
  transID : List Nat
  WSAStartup : Int
  wVersion : Nat
  socket : Int
  gethostbyname : Bool
  connect : Int
  send_handshake : Int
  recv_handshake : Option (List Nat)
  send_auth : Int
  recv_auth : Option (List Nat)

/-- Library calls, in the order the program makes them. -/
inductive Event where
  | WSAStartup
  | socket
  | gethostbyname
  | connect (sd : Int)
  | send (sd : Int) (packet : List Nat)
  | recv (sd : Int)
  | shutdown (sd : Int)
  | closesocket (sd : Int)
  | WSACleanup
  deriving DecidableEq

/-- Macro `LOBYTE` of the Windows headers. -/
def LOBYTE (w : Nat) : Nat := w % 256

/-- Macro `HIBYTE` of the Windows headers. -/
def HIBYTE (w : Nat) : Nat := w / 256 % 256

/-- Function `socket_close` (lines 568-578). -/
def socket_close (sd : Int) : List Event :=
  [.shutdown sd, .closesocket sd, .WSACleanup]

/-- Effect of a successful `recv(sd, tli_stream, 100, 0)` on the array: the
delivered bytes, at most 100 of them, replace the front of the array. -/
def recv_into (tli_stream data : List Nat) : List Nat :=
  data.take 100 ++ tli_stream.drop (data.take 100).length

/-- One run of the program: the library calls made and the value returned, or
the out-of-bounds store at which the run leaves defined behaviour. -/
structure Run where
  trace : List Event
  returncode : Except Fault Nat
  deriving DecidableEq

/-- Function `twofactorprocessing` (lines 106-446), WIN32 build.  The local array
`char tli_stream[100]` starts with indeterminate contents, taken here as
zeros; `clear_array` overwrites all of it before any byte is read. -/
def twofactorprocessing (env : Env) (appID userID secureID : List Nat) : Run :=
  let tli_stream := List.replicate 100 0
  let t := [Event.WSAStartup]
  if env.WSAStartup ≠ 0 then ⟨t, .ok 10⟩ else
  if LOBYTE env.wVersion ≠ 1 ∨ HIBYTE env.wVersion ≠ 1 then ⟨t, .ok 20⟩ else
  let sd := env.socket
  let t := t ++ [.socket]
  if sd < 0 then ⟨t, .ok 30⟩ else
  let t := t ++ [.gethostbyname]
  if env.gethostbyname = false then ⟨t, .ok 40⟩ else
  let t := t ++ [.connect sd]
  if env.connect < 0 then ⟨t ++ socket_close sd, .ok 50⟩ else
  match handshake_packet tli_stream env.transID appID with
  | .error f => ⟨t, .error f⟩
  | .ok (tli_stream, tli_index) =>
  let t := t ++ [.send sd (tli_stream.take tli_index)]
  if env.send_handshake < 0 then ⟨t ++ socket_close sd, .ok 60⟩ else
  match clear_array tli_stream with
  | .error f => ⟨t, .error f⟩
  | .ok tli_stream =>
  let t := t ++ [.recv sd]
  match env.recv_handshake with
  | none => ⟨t ++ socket_close sd, .ok 65⟩
  | some data =>
  let tli_stream := recv_into tli_stream data
  match auth_packet tli_stream env.transID userID secureID with
  | .error f => ⟨t, .error f⟩
  | .ok (tli_stream, tli_index) =>
  let t := t ++ [.send sd (tli_stream.take tli_index)]
  if env.send_auth < 0 then ⟨t ++ socket_close sd, .ok 70⟩ else
  match clear_array tli_stream with
  | .error f => ⟨t, .error f⟩
  | .ok tli_stream =>
  let t := t ++ [.recv sd]
  match env.recv_auth with
  | none => ⟨t ++ socket_close sd, .ok 75⟩
  | some data =>
  let tli_stream := recv_into tli_stream data
  let returncode := if tli_stream.getD 21 0 ≠ 0 then 1 else 0
  ⟨t ++ socket_close sd, .ok returncode⟩

/-- Function `twofactor` (lines 54-70): the exported entry point.  It runs
`twofactorprocessing` inside a critical section and returns its result. -/
def twofactor (env : Env) (appID userID secureID : List Nat) : Run :=
  twofactorprocessing env appID userID secureID

/-! ## Vocabulary of the statements -/

/-- A run of consecutive `put` statements, one for each value. -/
def puts (s : List Nat × Nat) : List Nat → Except Fault (List Nat × Nat)
  | [] => pure s
  | v :: vs => do
    let s ← put s v
    puts s vs

/-- Translations of the six bytes that `build_header` reads through `tid`. -/
def tid_bytes (tid : List Nat) : List Nat :=
  (List.range 6).map fun x => ASCIItoEBCDIC (tid.getD x 0)

/-- The twelve bytes that `build_header` writes at offsets 2 to 13. -/
def header_bytes (tid : List Nat) (c : Nat) : List Nat :=
  [ASCIItoEBCDIC (chr 'O'), ASCIItoEBCDIC (chr 'S')] ++ tid_bytes tid ++
    [ASCIItoEBCDIC (chr 'S'), ASCIItoEBCDIC (chr 'E'), ASCIItoEBCDIC (chr '0'), ASCIItoEBCDIC c]

/-- Bytes 2 and up of the handshake packet. -/
def handshake_fields (transID appID : List Nat) : List Nat :=
  header_bytes transID (chr '0') ++ htons appID.length ++ appID.map ASCIItoEBCDIC ++
    htons 5 ++ sysID.map ASCIItoEBCDIC ++ [0, 0, 0, 1, ASCIItoEBCDIC (chr '1')]

/-- The twenty-eight bytes that close the authentication packet. -/
def auth_trailer_bytes : List Nat :=
  [0, 0, 0, 0, 0, 0,
   0, 3, ASCIItoEBCDIC (chr 'T'), ASCIItoEBCDIC (chr 'C'), ASCIItoEBCDIC (chr 'P'),
   0, 7, ASCIItoEBCDIC (chr 'W'), ASCIItoEBCDIC (chr 'E'), ASCIItoEBCDIC (chr 'B'),
   ASCIItoEBCDIC (chr 'T'), ASCIItoEBCDIC (chr 'E'), ASCIItoEBCDIC (chr 'R'),
   ASCIItoEBCDIC (chr 'M'),
   0, 0,
   0, 3, ASCIItoEBCDIC (chr 'T'), ASCIItoEBCDIC (chr 'L'), ASCIItoEBCDIC (chr 'I'),
   0]

/-- Bytes 2 and up of the authentication packet. -/
def auth_fields (transID userID secureID : List Nat) : List Nat :=
  header_bytes transID (chr '3') ++ htons userID.length ++ userID.map ASCIItoEBCDIC ++
    [0, 0, 0, 0, 0, 0] ++ htons secureID.length ++ secureID.map ASCIItoEBCDIC ++
    [0, 0, 0, 2, 0, 11] ++ auth_trailer_bytes

/-- The bytes that `send(sd, tli_stream, tli_index, 0)` transmits: the first
`tli_index` bytes of the array, or nothing when the packet was not built. -/
def wire (r : Except Fault (List Nat × Nat)) : Option (List Nat) :=
  match r with
  | .ok s => some (s.1.take s.2)
  | .error _ => none

/-- The packets of the `send` calls of a trace, in order. -/
def sent_packets (t : List Event) : List (List Nat) :=
  t.filterMap fun e =>
    match e with
    | .send _ p => some p
    | _ => none

/-- A two-byte field read as a big-endian 16-bit number. -/
def be16 (hi lo : Nat) : Nat := hi * 256 + lo

/-- The steps of the session in program order, each with its failure test and
the code documented for it (lines 84-92). -/
def step_failures (env : Env) : List (Bool × Nat) :=
  [(decide (env.WSAStartup ≠ 0), 10),
   (decide (LOBYTE env.wVersion ≠ 1 ∨ HIBYTE env.wVersion ≠ 1), 20),
   (decide (env.socket < 0), 30),
   (decide (env.gethostbyname = false), 40),
   (decide (env.connect < 0), 50),
   (decide (env.send_handshake < 0), 60),
   (env.recv_handshake.isNone, 65),
   (decide (env.send_auth < 0), 70),
   (env.recv_auth.isNone, 75)]

/-- Code of the first step that fails, if any does. -/
def first_failure (env : Env) : Option Nat :=
  ((step_failures env).find? fun p => p.1).map fun p => p.2

/-- The codes listed in the header comment of `twofactorprocessing`. -/
def documented_codes : List Nat := [0, 1, 10, 20, 30, 40, 50, 60, 65, 70, 75]

/-- The handshake packet as transmitted. -/
def handshake_wire (transID appID : List Nat) : List Nat :=
  htons (28 + appID.length) ++ handshake_fields transID appID

/-- The authentication packet as transmitted. -/
def auth_wire (transID userID secureID : List Nat) : List Nat :=
  htons (58 + userID.length + secureID.length) ++ auth_fields transID userID secureID

/-- Control flow of `twofactorprocessing` with the two packets given. -/
def session_with (env : Env) (p1 p2 : List Nat) : Run :=
  let sd := env.socket
  if env.WSAStartup ≠ 0 then ⟨[.WSAStartup], .ok 10⟩ else
  if LOBYTE env.wVersion ≠ 1 ∨ HIBYTE env.wVersion ≠ 1 then ⟨[.WSAStartup], .ok 20⟩ else
  if sd < 0 then ⟨[.WSAStartup, .socket], .ok 30⟩ else
  if env.gethostbyname = false then ⟨[.WSAStartup, .socket, .gethostbyname], .ok 40⟩ else
  if env.connect < 0 then
    ⟨[.WSAStartup, .socket, .gethostbyname, .connect sd] ++ socket_close sd, .ok 50⟩ else
  if env.send_handshake < 0 then
    ⟨[.WSAStartup, .socket, .gethostbyname, .connect sd, .send sd p1] ++ socket_close sd,
      .ok 60⟩ else
  match env.recv_handshake with
  | none =>
    ⟨[.WSAStartup, .socket, .gethostbyname, .connect sd, .send sd p1, .recv sd] ++
      socket_close sd, .ok 65⟩
  | some _ =>
  if env.send_auth < 0 then
    ⟨[.WSAStartup, .socket, .gethostbyname, .connect sd, .send sd p1, .recv sd, .send sd p2] ++
      socket_close sd, .ok 70⟩ else
  match env.recv_auth with
  | none =>
    ⟨[.WSAStartup, .socket, .gethostbyname, .connect sd, .send sd p1, .recv sd, .send sd p2,
      .recv sd] ++ socket_close sd, .ok 75⟩
  | some data =>
    ⟨[.WSAStartup, .socket, .gethostbyname, .connect sd, .send sd p1, .recv sd, .send sd p2,
      .recv sd] ++ socket_close sd,
      .ok (if (recv_into (List.replicate 100 70) data).getD 21 0 ≠ 0 then 1 else 0)⟩

/-- Every library call of the session succeeds: start-up and version check of
the socket library, socket creation, address resolution, connect, both sends
and both receives. -/
def all_succeed (env : Env) : Prop :=
  env.WSAStartup = 0 ∧ LOBYTE env.wVersion = 1 ∧ HIBYTE env.wVersion = 1 ∧
  0 ≤ env.socket ∧ env.gethostbyname = true ∧ 0 ≤ env.connect ∧
  0 ≤ env.send_handshake ∧ env.recv_handshake.isSome = true ∧
  0 ≤ env.send_auth ∧ env.recv_auth.isSome = true

instance (env : Env) : Decidable (all_succeed env) := by
  unfold all_succeed
  infer_instance

/-- A gateway that acknowledges the handshake and answers the request with
byte 21 equal to zero. -/
def scenario_A : Env :=
  { transID := cstr "123456", WSAStartup := 0, wVersion := 257, socket := 3,
    gethostbyname := true, connect := 0, send_handshake := 32,
    recv_handshake := some (List.replicate 100 0), send_auth := 69,
    recv_auth := some (List.replicate 100 0) }

/-- A gateway address that does not resolve. -/
def scenario_C : Env :=
  { scenario_A with gethostbyname := false }

/-- The library calls up to and including `connect` succeed. -/
def connected (env : Env) : Prop :=
  env.WSAStartup = 0 ∧ LOBYTE env.wVersion = 1 ∧ HIBYTE env.wVersion = 1 ∧
  0 ≤ env.socket ∧ env.gethostbyname = true ∧ 0 ≤ env.connect

instance (env : Env) : Decidable (connected env) := by
  unfold connected
  infer_instance

/-- The sockets on which `closesocket` is called in a trace, in order. -/
def socket_closes (t : List Event) : List Int :=
  t.filterMap fun e =>
    match e with
    | .closesocket sd => some sd
    | _ => none

/-- The trace without the three calls made by `socket_close`. -/
def without_cleanup (t : List Event) : List Event :=
  t.filter fun e =>
    match e with
    | .shutdown _ => false
    | .closesocket _ => false
    | .WSACleanup => false
    | _ => true

/-- The library calls of a complete session in program order, cleanup aside. -/
def session_calls (sd : Int) (p1 p2 : List Nat) : List Event :=
  [.WSAStartup, .socket, .gethostbyname, .connect sd, .send sd p1, .recv sd, .send sd p2,
    .recv sd]

/-- How many of the `session_calls` are made when the first failing step has
the given code: the call on which that step fails is the last one made (the
version check of code 20 follows `WSAStartup` without a further call). -/
def calls_made (code : Option Nat) : Nat :=
  match code with
  | some 10 => 1
  | some 20 => 1
  | some 30 => 2
  | some 40 => 3
  | some 50 => 4
  | some 60 => 5
  | some 65 => 6
  | some 70 => 7
  | _ => 8

/-- How many times `socket_close` is called when the first failing step has the
given code. -/
def closes_made (code : Option Nat) : Nat :=
  match code with
  | some 10 => 0
  | some 20 => 0
  | some 30 => 0
  | some 40 => 0
  | _ => 1

/-- A gateway that refuses the connection. -/
def scenario_D : Env :=
  { scenario_A with connect := -1 }

/-- A gateway whose answer to the request is 21 zero bytes. -/
def scenario_E : Env :=
  { scenario_A with recv_auth := some (List.replicate 21 0) }

/-! ## Lemmas on stores -/

theorem bind_ok {α β : Type} (x : α) (f : α → Except Fault β) :
    (Except.ok x >>= f) = f x := rfl

theorem store_append (pre rest : List Nat) (i v : Nat) (hi : pre.length = i)
    (hr : 0 < rest.length) :
    store (pre ++ rest) i v = .ok (pre ++ v :: rest.drop 1) := by
  subst hi
  cases rest with
  | nil => simp at hr
  | cons x xs => simp [store]

theorem put_append (pre rest : List Nat) (i v : Nat) (hi : pre.length = i)
    (hr : 0 < rest.length) :
    put (pre ++ rest, i) v = .ok ((pre ++ [v]) ++ rest.drop 1, i + 1) := by
  simp [put, store_append pre rest i v hi hr, bind_ok]

theorem puts_append (vs : List Nat) : ∀ (pre rest : List Nat) (i : Nat),
    pre.length = i → vs.length ≤ rest.length →
    puts (pre ++ rest, i) vs = .ok ((pre ++ vs) ++ rest.drop vs.length, i + vs.length) := by
  induction vs with
  | nil => intro pre rest i _ _; simp [puts]; rfl
  | cons v vs ih =>
    intro pre rest i hi hr
    simp only [List.length_cons] at hr
    rw [puts, put_append pre rest i v hi (by omega), bind_ok,
      ih (pre ++ [v]) (rest.drop 1) (i + 1) (by simp [hi]) (by simp; omega)]
    simp [Nat.add_comm, Nat.add_left_comm]

theorem puts_concat (xs ys : List Nat) : ∀ s,
    puts s (xs ++ ys) = (puts s xs >>= fun s => puts s ys) := by
  induction xs with
  | nil => intro s; rfl
  | cons x xs ih =>
    intro s
    simp only [List.cons_append, puts]
    cases put s x with
    | error e => rfl
    | ok s1 => exact ih s1

theorem text_loop_eq (text : List Nat) : ∀ s,
    text_loop s text = puts s (text.map ASCIItoEBCDIC) := by
  induction text with
  | nil => intro s; rfl
  | cons c cs ih =>
    intro s
    simp only [text_loop, List.map_cons, puts]
    cases put s (ASCIItoEBCDIC c) with
    | error e => rfl
    | ok s1 => exact ih s1

theorem clear_loop_eq (n : Nat) : ∀ s, clear_loop n s = puts s (List.replicate n 70) := by
  induction n with
  | zero => intro s; rfl
  | succ n ih =>
    intro s
    simp only [clear_loop, List.replicate_succ, puts]
    have : chr 'F' = 70 := by decide
    rw [this]
    cases put s 70 with
    | error e => rfl
    | ok s1 => exact ih s1

theorem tid_loop_eq (n : Nat) : ∀ s tid,
    tid_loop n s tid = puts s ((List.range n).map fun x => ASCIItoEBCDIC (tid.getD x 0)) := by
  induction n with
  | zero => intro s tid; rfl
  | succ n ih =>
    intro s tid
    have h0 : tid.headD 0 = tid.getD 0 0 := by cases tid <;> rfl
    have hs : ∀ x, tid.tail.getD x 0 = tid.getD (x + 1) 0 := by
      intro x; cases tid <;> simp
    simp only [tid_loop, List.range_succ_eq_map, List.map_cons, List.map_map, puts, h0]
    cases put s (ASCIItoEBCDIC (tid.getD 0 0)) with
    | error e => rfl
    | ok s1 =>
      rw [bind_ok, bind_ok, ih]
      congr 1
      apply List.map_congr_left
      intro x _
      simp [hs]

theorem tid_bytes_eq_map (tid : List Nat) (ht : tid.length = 6) :
    tid_bytes tid = tid.map ASCIItoEBCDIC := by
  match tid, ht with
  | [_, _, _, _, _, _], _ => rfl

theorem store_short_append (pre rest : List Nat) (i n : Nat) (hi : pre.length = i)
    (hr : 2 ≤ rest.length) :
    store_short (pre ++ rest) i n = .ok ((pre ++ htons n) ++ rest.drop 2) := by
  obtain ⟨x, y, tl, rfl⟩ : ∃ x y tl, rest = x :: y :: tl := by
    match rest, hr with
    | x :: y :: tl, _ => exact ⟨x, y, tl, rfl⟩
  subst hi
  simp [store_short, store, htons, bind_ok]

theorem text_field_append (pre rest text : List Nat) (i : Nat) (hi : pre.length = i)
    (hr : 2 + text.length ≤ rest.length) :
    text_field (pre ++ rest, i) text =
      .ok (((pre ++ htons text.length) ++ text.map ASCIItoEBCDIC) ++
        rest.drop (2 + text.length), i + 2 + text.length) := by
  have hsplit : pre ++ rest = (pre ++ rest.take 2) ++ rest.drop 2 := by simp
  have h1 : text_loop (pre ++ rest, i + 1 + 1) text =
      .ok (((pre ++ rest.take 2) ++ text.map ASCIItoEBCDIC) ++ (rest.drop 2).drop text.length,
        i + 2 + text.length) := by
    rw [text_loop_eq, hsplit, puts_append _ _ _ (i + 1 + 1) (by simp [hi]; omega) (by simp; omega)]
    simp
  simp only [text_field]
  rw [h1, bind_ok]
  have h2 : ((pre ++ rest.take 2) ++ text.map ASCIItoEBCDIC) ++ (rest.drop 2).drop text.length
      = pre ++ (rest.take 2 ++ (text.map ASCIItoEBCDIC ++ (rest.drop 2).drop text.length)) := by
    simp
  simp only []
  rw [h2, store_short_append pre _ i text.length hi (by simp; omega), bind_ok]
  have h3 : (rest.take 2 ++ (text.map ASCIItoEBCDIC ++ (rest.drop 2).drop text.length)).drop 2
      = text.map ASCIItoEBCDIC ++ rest.drop (2 + text.length) := by
    rw [List.drop_append_of_le_length (by simp; omega), List.drop_of_length_le (by simp)]
    simp
  rw [h3]
  simp [pure, Except.pure]

theorem clear_array_eq (c : List Nat) (hc : c.length = 100) :
    clear_array c = .ok (List.replicate 100 70) := by
  have h := puts_append (List.replicate 100 70) [] c 0 rfl (by simp [hc])
  simp only [List.nil_append] at h
  simp only [clear_array, clear_loop_eq, h, bind_ok]
  rw [List.drop_of_length_le (by simp [hc])]
  simp [pure, Except.pure]

theorem header_bytes_length (tid : List Nat) (c : Nat) : (header_bytes tid c).length = 12 := by
  simp [header_bytes, tid_bytes]

theorem build_header_eq_puts (hdr tid : List Nat) (c : Nat) :
    build_header hdr tid c = puts (hdr, 2) (header_bytes tid c) := by
  have hb : header_bytes tid c =
      [ASCIItoEBCDIC (chr 'O'), ASCIItoEBCDIC (chr 'S')] ++ (tid_bytes tid ++
        [ASCIItoEBCDIC (chr 'S'), ASCIItoEBCDIC (chr 'E'), ASCIItoEBCDIC (chr '0'),
          ASCIItoEBCDIC c]) := by
    simp [header_bytes]
  rw [hb, puts_concat]
  simp only [puts_concat, build_header, tid_loop_eq, tid_bytes, puts, bind_assoc, bind_pure]

theorem build_header_append (hdr tid : List Nat) (c : Nat) (hh : 14 ≤ hdr.length) :
    build_header hdr tid c = .ok ((hdr.take 2 ++ header_bytes tid c) ++ hdr.drop 14, 14) := by
  have hsplit : hdr = hdr.take 2 ++ hdr.drop 2 := by simp
  have hl := header_bytes_length tid c
  rw [build_header_eq_puts hdr tid c]
  conv => lhs; rw [hsplit]
  rw [puts_append _ _ _ 2 (by simp; omega) (by simp; omega)]
  simp [hl]

theorem handshake_trailer_eq (s : List Nat × Nat) :
    handshake_trailer s = puts s [0, 0, 0, 1, ASCIItoEBCDIC (chr '1')] := by
  simp only [handshake_trailer, puts, bind_pure]

theorem auth_unused_eq (s : List Nat × Nat) :
    auth_unused s = puts s [0, 0, 0, 0, 0, 0] := by
  simp only [auth_unused, puts, bind_pure]

theorem auth_token_type_eq (s : List Nat × Nat) :
    auth_token_type s = puts s [0, 0, 0, 2, 0, 11] := by
  simp only [auth_token_type, puts, bind_pure]

theorem auth_trailer_eq (s : List Nat × Nat) :
    auth_trailer s = puts s auth_trailer_bytes := by
  simp only [auth_trailer, auth_trailer_bytes, puts, bind_pure]

theorem length_patch_eq (a : List Nat) (i : Nat) (ha : 2 ≤ a.length) :
    length_patch (a, i) = .ok (htons i ++ a.drop 2, i) := by
  have h := store_short_append [] a 0 i rfl ha
  simp only [List.nil_append] at h
  simp only [length_patch, h, bind_ok]
  rfl

/-! ## The two packets in closed form -/

theorem handshake_body_eq (tli_stream transID appID : List Nat) (hs : tli_stream.length = 100)
    (ha : 28 + appID.length ≤ 100) :
    handshake_body tli_stream transID appID =
      .ok ([70, 70] ++ handshake_fields transID appID ++
        List.replicate (72 - appID.length) 70, 28 + appID.length) := by
  have hl := header_bytes_length transID (chr '0')
  have hsys : sysID.length = 5 := by decide
  simp only [handshake_body]
  rw [clear_array_eq _ hs, bind_ok, build_header_append _ _ _ (by simp), bind_ok,
    text_field_append _ _ _ 14 (by simp [hl]) (by simp; omega), bind_ok,
    text_field_append _ _ _ (14 + 2 + appID.length) (by simp [hl, htons]; omega)
      (by simp [hsys]; omega), bind_ok,
    handshake_trailer_eq,
    puts_append _ _ _ _ (by simp [hl, htons, hsys]; omega) (by simp [hsys]; omega)]
  simp only [handshake_fields, hsys, Except.ok.injEq, Prod.mk.injEq]
  refine ⟨?_, by simp; omega⟩
  simp only [List.take_replicate, List.drop_replicate, List.drop_drop, List.append_assoc,
    List.length_cons, List.length_nil]
  have e : 100 - 14 - (2 + appID.length) - (2 + 5) - (0 + 1 + 1 + 1 + 1 + 1)
      = 72 - appID.length := by omega
  rw [e]
  rfl

theorem handshake_packet_eq (tli_stream transID appID : List Nat)
    (hs : tli_stream.length = 100) (ha : 28 + appID.length ≤ 100) :
    handshake_packet tli_stream transID appID =
      .ok (htons (28 + appID.length) ++ handshake_fields transID appID ++
        List.replicate (72 - appID.length) 70, 28 + appID.length) := by
  simp only [handshake_packet]
  rw [handshake_body_eq _ _ _ hs ha, bind_ok, length_patch_eq _ _ (by simp)]
  simp

theorem auth_body_eq (tli_stream transID userID secureID : List Nat)
    (hs : tli_stream.length = 100) (hf : 58 + userID.length + secureID.length ≤ 100) :
    auth_body tli_stream transID userID secureID =
      .ok ([70, 70] ++ auth_fields transID userID secureID ++
        List.replicate (42 - userID.length - secureID.length) 70,
        58 + userID.length + secureID.length) := by
  have hl := header_bytes_length transID (chr '3')
  have htr : auth_trailer_bytes.length = 28 := by decide
  simp only [auth_body]
  rw [clear_array_eq _ hs, bind_ok, build_header_append _ _ _ (by simp), bind_ok,
    text_field_append _ _ _ 14 (by simp [hl]) (by simp; omega), bind_ok,
    auth_unused_eq,
    puts_append _ _ _ _ (by simp [hl, htons]; omega) (by simp; omega), bind_ok,
    text_field_append _ _ _ _ (by simp [hl, htons]; omega) (by simp; omega), bind_ok,
    auth_token_type_eq,
    puts_append _ _ _ _ (by simp [hl, htons]; omega) (by simp; omega), bind_ok,
    auth_trailer_eq,
    puts_append _ _ _ _ (by simp [hl, htons]; omega) (by simp [htr]; omega)]
  simp only [auth_fields, htr, Except.ok.injEq, Prod.mk.injEq]
  refine ⟨?_, by simp; omega⟩
  simp only [List.take_replicate, List.drop_replicate, List.drop_drop, List.append_assoc,
    List.length_cons, List.length_nil]
  have e : 100 - 14 - (2 + userID.length) - (0 + 1 + 1 + 1 + 1 + 1 + 1) - (2 + secureID.length)
      - (0 + 1 + 1 + 1 + 1 + 1 + 1) - 28 = 42 - userID.length - secureID.length := by omega
  rw [e]
  rfl

theorem auth_packet_eq (tli_stream transID userID secureID : List Nat)
    (hs : tli_stream.length = 100) (hf : 58 + userID.length + secureID.length ≤ 100) :
    auth_packet tli_stream transID userID secureID =
      .ok (htons (58 + userID.length + secureID.length) ++ auth_fields transID userID secureID ++
        List.replicate (42 - userID.length - secureID.length) 70,
        58 + userID.length + secureID.length) := by
  simp only [auth_packet]
  rw [auth_body_eq _ _ _ _ hs hf, bind_ok, length_patch_eq _ _ (by simp)]
  simp

theorem handshake_fields_length (transID appID : List Nat) :
    (handshake_fields transID appID).length = 26 + appID.length := by
  simp [handshake_fields, header_bytes_length, htons, sysID, cstr]
  omega

theorem auth_fields_length (transID userID secureID : List Nat) :
    (auth_fields transID userID secureID).length = 56 + userID.length + secureID.length := by
  simp [auth_fields, header_bytes_length, htons, auth_trailer_bytes]
  omega

/-! ## The session in closed form -/

theorem handshake_wire_length (transID appID : List Nat) :
    (handshake_wire transID appID).length = 28 + appID.length := by
  simp [handshake_wire, handshake_fields_length, htons]; omega

theorem auth_wire_length (transID userID secureID : List Nat) :
    (auth_wire transID userID secureID).length = 58 + userID.length + secureID.length := by
  simp [auth_wire, auth_fields_length, htons]; omega

theorem recv_into_length (a data : List Nat) (ha : a.length = 100) :
    (recv_into a data).length = 100 := by
  simp [recv_into, ha]

theorem handshake_packet_wire (tli_stream transID appID : List Nat)
    (hs : tli_stream.length = 100) (ha : 28 + appID.length ≤ 100) :
    handshake_packet tli_stream transID appID =
      .ok (handshake_wire transID appID ++ List.replicate (72 - appID.length) 70,
        (handshake_wire transID appID).length) := by
  rw [handshake_packet_eq _ _ _ hs ha, handshake_wire_length, handshake_wire]

theorem auth_packet_wire (tli_stream transID userID secureID : List Nat)
    (hs : tli_stream.length = 100) (hf : 58 + userID.length + secureID.length ≤ 100) :
    auth_packet tli_stream transID userID secureID =
      .ok (auth_wire transID userID secureID ++
        List.replicate (42 - userID.length - secureID.length) 70,
        (auth_wire transID userID secureID).length) := by
  rw [auth_packet_eq _ _ _ _ hs hf, auth_wire_length, auth_wire]

theorem twofactorprocessing_eq (env : Env) (appID userID secureID : List Nat)
    (ha : 28 + appID.length ≤ 100) (hf : 58 + userID.length + secureID.length ≤ 100) :
    twofactorprocessing env appID userID secureID =
      session_with env (handshake_wire env.transID appID)
        (auth_wire env.transID userID secureID) := by
  have hc1 : clear_array (handshake_wire env.transID appID ++
      List.replicate (72 - appID.length) 70) = .ok (List.replicate 100 70) :=
    clear_array_eq _ (by simp [handshake_wire_length]; omega)
  have hc2 : clear_array (auth_wire env.transID userID secureID ++
      List.replicate (42 - userID.length - secureID.length) 70) = .ok (List.replicate 100 70) :=
    clear_array_eq _ (by simp [auth_wire_length]; omega)
  have hp2 : ∀ data, auth_packet (recv_into (List.replicate 100 70) data) env.transID userID
      secureID = .ok (auth_wire env.transID userID secureID ++
        List.replicate (42 - userID.length - secureID.length) 70,
        (auth_wire env.transID userID secureID).length) :=
    fun data => auth_packet_wire _ _ _ _ (recv_into_length _ _ (by simp)) hf
  simp only [twofactorprocessing, session_with,
    handshake_packet_wire _ env.transID appID (List.length_replicate 100 0) ha,
    hc1, hp2, hc2, List.take_left, List.cons_append, List.nil_append]

theorem session_with_success (env : Env) (p1 p2 data : List Nat) (hok : all_succeed env)
    (hd : env.recv_auth = some data) :
    (session_with env p1 p2).returncode =
      .ok (if (recv_into (List.replicate 100 70) data).getD 21 0 ≠ 0 then 1 else 0) := by
  obtain ⟨h1, h2, h3, h4, h5, h6, h7, h8, h9, -⟩ := hok
  obtain ⟨d1, hd1⟩ := Option.isSome_iff_exists.mp h8
  simp [session_with, h1, h2, h3, h4, h5, h6, h7, hd1, h9, hd, Int.not_lt.mpr]

theorem twofactorprocessing_eq_reached (env : Env) (appID userID secureID : List Nat)
    (ha : connected env → 28 + appID.length ≤ 100)
    (hf : connected env → 0 ≤ env.send_handshake → env.recv_handshake.isSome = true →
      58 + userID.length + secureID.length ≤ 100) :
    twofactorprocessing env appID userID secureID =
      session_with env (handshake_wire env.transID appID)
        (auth_wire env.transID userID secureID) := by
  by_cases h1 : env.WSAStartup ≠ 0
  · unfold twofactorprocessing session_with
    dsimp only
    rw [if_pos h1, if_pos h1]
  by_cases h2 : LOBYTE env.wVersion ≠ 1 ∨ HIBYTE env.wVersion ≠ 1
  · unfold twofactorprocessing session_with
    dsimp only
    rw [if_neg h1, if_pos h2, if_neg h1, if_pos h2]
  by_cases h3 : env.socket < 0
  · unfold twofactorprocessing session_with
    dsimp only
    rw [if_neg h1, if_neg h2, if_pos h3, if_neg h1, if_neg h2, if_pos h3]
    rfl
  by_cases h4 : env.gethostbyname = false
  · unfold twofactorprocessing session_with
    dsimp only
    rw [if_neg h1, if_neg h2, if_neg h3, if_pos h4, if_neg h1, if_neg h2, if_neg h3, if_pos h4]
    rfl
  by_cases h5 : env.connect < 0
  · unfold twofactorprocessing session_with
    dsimp only
    rw [if_neg h1, if_neg h2, if_neg h3, if_neg h4, if_pos h5, if_neg h1, if_neg h2, if_neg h3,
      if_neg h4, if_pos h5]
    rfl
  have hc : connected env := by
    refine ⟨by simpa using h1, ?_, ?_, by omega, by simpa using h4, by omega⟩
    · by_contra h; exact h2 (Or.inl h)
    · by_contra h; exact h2 (Or.inr h)
  have ha' := ha hc
  have hh := handshake_packet_wire (List.replicate 100 0) env.transID appID
    (List.length_replicate 100 0) ha'
  have hc1 : clear_array (handshake_wire env.transID appID ++
      List.replicate (72 - appID.length) 70) = .ok (List.replicate 100 70) :=
    clear_array_eq _ (by simp [handshake_wire_length]; omega)
  by_cases h6 : env.send_handshake < 0
  · unfold twofactorprocessing session_with
    dsimp only
    rw [if_neg h1, if_neg h2, if_neg h3, if_neg h4, if_neg h5, hh]
    dsimp only
    rw [if_pos h6, if_neg h1, if_neg h2, if_neg h3, if_neg h4, if_neg h5, if_pos h6,
      List.take_left]
    rfl
  cases h7 : env.recv_handshake with
  | none =>
    unfold twofactorprocessing session_with
    dsimp only
    rw [if_neg h1, if_neg h2, if_neg h3, if_neg h4, if_neg h5, hh]
    dsimp only
    rw [if_neg h6, hc1, if_neg h1, if_neg h2, if_neg h3, if_neg h4, if_neg h5, if_neg h6, h7,
      List.take_left]
    rfl
  | some d1 =>
    exact twofactorprocessing_eq env appID userID secureID ha'
      (hf hc (by omega) (by simp [h7]))

/-! ## Slices of the packets -/

theorem htons_eq (n : Nat) (h : n < 65536) : htons n = [n / 256, n % 256] := by
  simp [htons, Nat.mod_eq_of_lt h]

theorem wire_handshake_packet (tli_stream transID appID : List Nat)
    (hs : tli_stream.length = 100) (ha : 28 + appID.length ≤ 100) :
    wire (handshake_packet tli_stream transID appID) = some (handshake_wire transID appID) := by
  rw [handshake_packet_wire _ _ _ hs ha]
  simp [wire]

theorem wire_auth_packet (tli_stream transID userID secureID : List Nat)
    (hs : tli_stream.length = 100) (hf : 58 + userID.length + secureID.length ≤ 100) :
    wire (auth_packet tli_stream transID userID secureID) =
      some (auth_wire transID userID secureID) := by
  rw [auth_packet_wire _ _ _ _ hs hf]
  simp [wire]

theorem first_send (env : Env) (appID userID secureID : List Nat) (hc : connected env)
    (ha : 28 + appID.length ≤ 100) :
    (sent_packets (twofactorprocessing env appID userID secureID).trace).head? =
      some (handshake_wire env.transID appID) := by
  obtain ⟨h1, h2, h3, h4, h5, h6⟩ := hc
  have hc1 : clear_array (handshake_wire env.transID appID ++
      List.replicate (72 - appID.length) 70) = .ok (List.replicate 100 70) :=
    clear_array_eq _ (by simp [handshake_wire_length]; omega)
  simp only [twofactorprocessing,
    handshake_packet_wire _ env.transID appID (List.length_replicate 100 0) ha, hc1,
    h1, h2, h3, h5, Int.not_lt.mpr h4, Int.not_lt.mpr h6, List.take_left]
  simp only [ne_eq, not_true_eq_false, or_self, if_false, Bool.true_eq_false]
  by_cases h7 : env.send_handshake < 0
  · simp [h7, sent_packets]
  simp only [h7, if_false]
  cases env.recv_handshake with
  | none => simp [sent_packets, socket_close]
  | some d1 =>
    simp only []
    generalize auth_packet (recv_into (List.replicate 100 70) d1) env.transID userID secureID = r
    cases r with
    | error f => simp [sent_packets]
    | ok s =>
      simp only []
      by_cases h8 : env.send_auth < 0
      · simp [h8, sent_packets]
      simp only [h8, if_false]
      generalize clear_array s.1 = r2
      cases r2 with
      | error f => simp [sent_packets]
      | ok a =>
        simp only []
        cases env.recv_auth <;> simp [sent_packets]

theorem handshake_wire_bytes (transID appID : List Nat) (ht : transID.length = 6)
    (ha : 28 + appID.length ≤ 100) :
    handshake_wire transID appID =
      [(28 + appID.length) / 256, (28 + appID.length) % 256] ++
      [ASCIItoEBCDIC (chr 'O'), ASCIItoEBCDIC (chr 'S')] ++
      transID.map ASCIItoEBCDIC ++
      [ASCIItoEBCDIC (chr 'S'), ASCIItoEBCDIC (chr 'E')] ++
      [ASCIItoEBCDIC (chr '0'), ASCIItoEBCDIC (chr '0')] ++
      [appID.length / 256, appID.length % 256] ++
      appID.map ASCIItoEBCDIC ++
      [0, 5] ++
      [ASCIItoEBCDIC (chr 'N'), ASCIItoEBCDIC (chr 'C'), ASCIItoEBCDIC (chr 'T'),
        ASCIItoEBCDIC (chr 'L'), ASCIItoEBCDIC (chr 'I')] ++
      [0, 0] ++
      [0, 1, ASCIItoEBCDIC (chr '1')] := by
  have hsys : sysID.map ASCIItoEBCDIC = [ASCIItoEBCDIC (chr 'N'), ASCIItoEBCDIC (chr 'C'),
      ASCIItoEBCDIC (chr 'T'), ASCIItoEBCDIC (chr 'L'), ASCIItoEBCDIC (chr 'I')] := by decide
  have h5 : htons 5 = [0, 5] := by rfl
  rw [handshake_wire, handshake_fields, header_bytes, tid_bytes_eq_map _ ht,
    htons_eq _ (by omega), htons_eq appID.length (by omega), hsys, h5]
  simp only [List.append_assoc, List.cons_append, List.nil_append]

theorem drop_seg (seg rest : List Nat) (n k : Nat) (h : seg.length = n) :
    (seg ++ rest).drop (n + k) = rest.drop k := by
  subst h
  exact List.drop_append k

theorem take_seg (seg rest : List Nat) (n : Nat) (h : seg.length = n) :
    (seg ++ rest).take n = seg := List.take_left' h

theorem drop_htons (n k : Nat) (rest : List Nat) :
    (htons n ++ rest).drop (2 + k) = rest.drop k := drop_seg _ _ 2 k rfl

theorem drop_header_bytes (tid rest : List Nat) (c k : Nat) :
    (header_bytes tid c ++ rest).drop (12 + k) = rest.drop k :=
  drop_seg _ _ 12 k (header_bytes_length tid c)

theorem drop_text (text rest : List Nat) (k : Nat) :
    (text.map ASCIItoEBCDIC ++ rest).drop (text.length + k) = rest.drop k :=
  drop_seg _ _ _ k (List.length_map _ _)

theorem drop_two (a b k : Nat) (rest : List Nat) :
    ([a, b] ++ rest).drop (2 + k) = rest.drop k := drop_seg _ _ 2 k rfl

theorem drop_four (a b c d k : Nat) (rest : List Nat) :
    ([a, b, c, d] ++ rest).drop (4 + k) = rest.drop k := drop_seg _ _ 4 k rfl

theorem drop_six (a b c d e f k : Nat) (rest : List Nat) :
    ([a, b, c, d, e, f] ++ rest).drop (6 + k) = rest.drop k := drop_seg _ _ 6 k rfl

theorem take_htons (n : Nat) (rest : List Nat) : (htons n ++ rest).take 2 = htons n :=
  take_seg _ _ 2 rfl

theorem take_text (text rest : List Nat) :
    (text.map ASCIItoEBCDIC ++ rest).take text.length = text.map ASCIItoEBCDIC :=
  take_seg _ _ _ (List.length_map _ _)

theorem be16_div_mod (n : Nat) : be16 (n / 256) (n % 256) = n := by
  simp only [be16]
  omega

theorem handshake_wire_nested (transID appID : List Nat) :
    handshake_wire transID appID =
      htons (28 + appID.length) ++ (header_bytes transID (chr '0') ++ (htons appID.length ++
        (appID.map ASCIItoEBCDIC ++ (htons 5 ++ (sysID.map ASCIItoEBCDIC ++
          [0, 0, 0, 1, ASCIItoEBCDIC (chr '1')]))))) := by
  simp only [handshake_wire, handshake_fields, List.append_assoc]

theorem auth_wire_nested (transID userID secureID : List Nat) :
    auth_wire transID userID secureID =
      htons (58 + userID.length + secureID.length) ++ (header_bytes transID (chr '3') ++
        (htons userID.length ++ (userID.map ASCIItoEBCDIC ++ ([0, 0, 0, 0, 0, 0] ++
          (htons secureID.length ++ (secureID.map ASCIItoEBCDIC ++
            ([0, 0] ++ ([0, 2, 0, 11] ++ auth_trailer_bytes)))))))) := by
  simp only [auth_wire, auth_fields, List.append_assoc, List.cons_append, List.nil_append]

theorem session_with_sent (env : Env) (p1 p2 : List Nat) (hok : all_succeed env) :
    sent_packets (session_with env p1 p2).trace = [p1, p2] := by
  obtain ⟨h1, h2, h3, h4, h5, h6, h7, h8, h9, h10⟩ := hok
  obtain ⟨d1, hd1⟩ := Option.isSome_iff_exists.mp h8
  obtain ⟨d2, hd2⟩ := Option.isSome_iff_exists.mp h10
  simp [session_with, h1, h2, h3, h4, h5, h6, h7, hd1, h9, hd2, Int.not_lt.mpr, sent_packets,
    socket_close]

theorem be16_htons (n : Nat) (rest : List Nat) (h : n < 65536) :
    be16 ((htons n ++ rest).getD 0 0) ((htons n ++ rest).getD 1 0) = n := by
  rw [htons_eq n h]
  exact be16_div_mod n

/-! ## The result code -/

/-- C2: for every outcome of the library calls `twofactor` returns the code of the
first step that fails in program order; it returns 0 or 1 exactly when no
step fails; the value returned is always one of the documented codes and
never the initial value 9 of `returncode`.  The texts are unrestricted on
every run that returns before `tli_stream` is used (codes 10 to 50); a packet
is assumed to fit the array only on the runs that build it. -/
theorem twofactor_returns_first_failure (env : Env) (appID userID secureID : List Nat)
    (ha : connected env → 28 + appID.length ≤ 100)
    (hf : connected env → 0 ≤ env.send_handshake → env.recv_handshake.isSome = true →
      58 + userID.length + secureID.length ≤ 100) :
    (∀ c, first_failure env = some c →
      (twofactor env appID userID secureID).returncode = .ok c) ∧
    (first_failure env = none ↔
      ((twofactor env appID userID secureID).returncode = .ok 0 ∨
        (twofactor env appID userID secureID).returncode = .ok 1)) ∧
    (∃ c, c ∈ documented_codes ∧ (twofactor env appID userID secureID).returncode = .ok c) ∧
    (twofactor env appID userID secureID).returncode ≠ .ok 9 := by
  rw [twofactor, twofactorprocessing_eq_reached env appID userID secureID ha hf]
  simp only [session_with, first_failure, step_failures, documented_codes]
  by_cases h1 : env.WSAStartup ≠ 0
  · simp [h1]
  by_cases h2 : LOBYTE env.wVersion ≠ 1 ∨ HIBYTE env.wVersion ≠ 1
  · simp [h1, h2]
  by_cases h3 : env.socket < 0
  · simp [h1, h2, h3]
  by_cases h4 : env.gethostbyname = false
  · simp [h1, h2, h3, h4]
  by_cases h5 : env.connect < 0
  · simp [h1, h2, h3, h4, h5]
  by_cases h6 : env.send_handshake < 0
  · simp [h1, h2, h3, h4, h5, h6]
  cases h7 : env.recv_handshake with
  | none => simp [h1, h2, h3, h4, h5, h6, h7]
  | some d1 =>
    by_cases h8 : env.send_auth < 0
    · simp [h1, h2, h3, h4, h5, h6, h7, h8]
    cases h9 : env.recv_auth with
    | none => simp [h1, h2, h3, h4, h5, h6, h7, h8, h9]
    | some d2 =>
      simp only [h1, h2, h3, h4, h5, h6, h7, h8, h9]
      generalize (recv_into (List.replicate 100 70) d2).getD 21 0 = b
      by_cases hb : b = 0 <;> simp [hb]

/-- Scenario C of the specification, with an appID of 73 characters: the gateway
address does not resolve and the result is 40 whatever the texts are. -/
theorem twofactor_returns_first_failure_witness :
    (twofactor scenario_C (List.replicate 73 (chr 'A')) (cstr "alice")
      (cstr "123456")).returncode = .ok 40 :=
  (twofactor_returns_first_failure scenario_C (List.replicate 73 (chr 'A')) (cstr "alice")
    (cstr "123456") (fun h => absurd h (by decide))
    (fun h _ _ => absurd h (by decide))).1 40 (by decide)

/-! ## Packet contents -/

/-- C3: for a six-byte transaction id and an appID with 28 + a ≤ 100, the
handshake packet handed to `send` is the 16-bit big-endian value 28 + a, the
translated "OS", the translated transaction id, the translated "SE", "0" and
"0", the 16-bit big-endian a, the translated appID, 0 5 and the translated
"NCTLI", 0 0, and 0 1 followed by the translated "1"; it is the first packet
sent by `twofactor` once the connection is made. -/
theorem handshake_packet_bytes (tli_stream transID appID : List Nat)
    (hs : tli_stream.length = 100) (ht : transID.length = 6) (ha : 28 + appID.length ≤ 100) :
    ∃ p, wire (handshake_packet tli_stream transID appID) = some p ∧
      p = [(28 + appID.length) / 256, (28 + appID.length) % 256] ++
        [ASCIItoEBCDIC (chr 'O'), ASCIItoEBCDIC (chr 'S')] ++
        transID.map ASCIItoEBCDIC ++
        [ASCIItoEBCDIC (chr 'S'), ASCIItoEBCDIC (chr 'E')] ++
        [ASCIItoEBCDIC (chr '0'), ASCIItoEBCDIC (chr '0')] ++
        [appID.length / 256, appID.length % 256] ++
        appID.map ASCIItoEBCDIC ++
        [0, 5] ++
        [ASCIItoEBCDIC (chr 'N'), ASCIItoEBCDIC (chr 'C'), ASCIItoEBCDIC (chr 'T'),
          ASCIItoEBCDIC (chr 'L'), ASCIItoEBCDIC (chr 'I')] ++
        [0, 0] ++
        [0, 1, ASCIItoEBCDIC (chr '1')] ∧
      ∀ (env : Env) (userID secureID : List Nat), env.transID = transID → connected env →
        (sent_packets (twofactor env appID userID secureID).trace).head? = some p := by
  refine ⟨handshake_wire transID appID, wire_handshake_packet _ _ _ hs ha,
    handshake_wire_bytes _ _ ht ha, ?_⟩
  intro env userID secureID he hc
  rw [twofactor, first_send env appID userID secureID hc ha, he]

/-- The handshake packet for appID "APP1" and transaction id "123456": 32 bytes. -/
theorem handshake_packet_bytes_witness :
    wire (handshake_packet (List.replicate 100 0) (cstr "123456") (cstr "APP1")) =
      some [0, 32, 214, 226, 241, 242, 243, 244, 245, 246, 226, 197, 240, 240, 0, 4, 193, 215,
        215, 241, 0, 5, 213, 195, 227, 211, 201, 0, 0, 0, 1, 241] := by
  obtain ⟨p, h1, h2, -⟩ := handshake_packet_bytes (List.replicate 100 0) (cstr "123456")
    (cstr "APP1") (by decide) (by decide) (by decide)
  rw [h1, h2]
  decide

/-- C4: each caller-supplied text of length n is written as a field of 2 + n
bytes: the block stores the 16-bit big-endian n at the cursor, the translated
characters after it, and moves the cursor by 2 + n; appID lies at offset 14 of
the handshake packet, userID at offset 14 and secureID at offset 22 + u of the
authentication packet. -/
theorem text_field_layout (tli_stream transID appID userID secureID : List Nat)
    (hs : tli_stream.length = 100) (ha : 28 + appID.length ≤ 100)
    (hf : 58 + userID.length + secureID.length ≤ 100) :
    (∀ (a text : List Nat) (c : Nat), a.length = 100 → c + 2 + text.length ≤ 100 →
      text_field (a, c) text =
        .ok (a.take c ++ [text.length / 256, text.length % 256] ++ text.map ASCIItoEBCDIC ++
          a.drop (c + 2 + text.length), c + 2 + text.length) ∧
      be16 (text.length / 256) (text.length % 256) = text.length) ∧
    (∃ p hi lo, wire (handshake_packet tli_stream transID appID) = some p ∧
      (p.drop 14).take 2 = [hi, lo] ∧ be16 hi lo = appID.length ∧
      (p.drop (14 + 2)).take appID.length = appID.map ASCIItoEBCDIC) ∧
    (∃ p hi lo hi' lo', wire (auth_packet tli_stream transID userID secureID) = some p ∧
      (p.drop 14).take 2 = [hi, lo] ∧ be16 hi lo = userID.length ∧
      (p.drop (14 + 2)).take userID.length = userID.map ASCIItoEBCDIC ∧
      (p.drop (22 + userID.length)).take 2 = [hi', lo'] ∧ be16 hi' lo' = secureID.length ∧
      (p.drop (22 + userID.length + 2)).take secureID.length =
        secureID.map ASCIItoEBCDIC) := by
  refine ⟨?_, ?_, ?_⟩
  · intro a text c hal hc
    refine ⟨?_, be16_div_mod _⟩
    have h := text_field_append (a.take c) (a.drop c) text c (by simp; omega) (by simp; omega)
    rw [List.take_append_drop] at h
    rw [h, htons_eq _ (by omega)]
    simp [Nat.add_assoc]
  · refine ⟨_, appID.length / 256, appID.length % 256, wire_handshake_packet _ _ _ hs ha, ?_,
      be16_div_mod _, ?_⟩
    · rw [handshake_wire_nested, show (14 : Nat) = 2 + (12 + 0) from rfl,
        drop_htons, drop_header_bytes, List.drop_zero, take_htons, htons_eq _ (by omega)]
    · rw [handshake_wire_nested, show (14 + 2 : Nat) = 2 + (12 + (2 + 0)) from rfl,
        drop_htons, drop_header_bytes, drop_htons, List.drop_zero, take_text]
  · refine ⟨_, userID.length / 256, userID.length % 256, secureID.length / 256,
      secureID.length % 256, wire_auth_packet _ _ _ _ hs hf, ?_, be16_div_mod _, ?_, ?_,
      be16_div_mod _, ?_⟩
    · rw [auth_wire_nested, show (14 : Nat) = 2 + (12 + 0) from rfl,
        drop_htons, drop_header_bytes, List.drop_zero, take_htons, htons_eq _ (by omega)]
    · rw [auth_wire_nested, show (14 + 2 : Nat) = 2 + (12 + (2 + 0)) from rfl,
        drop_htons, drop_header_bytes, drop_htons, List.drop_zero, take_text]
    · rw [auth_wire_nested,
        show 22 + userID.length = 2 + (12 + (2 + (userID.length + (6 + 0)))) by omega,
        drop_htons, drop_header_bytes, drop_htons, drop_text, drop_six, List.drop_zero,
        take_htons, htons_eq _ (by omega)]
    · rw [auth_wire_nested,
        show 22 + userID.length + 2 = 2 + (12 + (2 + (userID.length + (6 + (2 + 0))))) by omega,
        drop_htons, drop_header_bytes, drop_htons, drop_text, drop_six, drop_htons,
        List.drop_zero, take_text]

/-- The appID block for "APP1" on a cleared array, entered at cursor 14. -/
theorem text_field_layout_witness :
    text_field (List.replicate 100 70, 14) (cstr "APP1") =
      .ok (List.replicate 14 70 ++ [0, 4, 193, 215, 215, 241] ++ List.replicate 80 70, 20) := by
  have h := ((text_field_layout (List.replicate 100 0) (cstr "123456") (cstr "APP1")
    (cstr "alice") (cstr "123456") (by decide) (by decide) (by decide)).1
    (List.replicate 100 70) (cstr "APP1") 14 (by decide) (by decide)).1
  rw [h]
  decide

/-- C5: for userID of length u and secureID of length t with 58 + u + t ≤ 100,
the authentication packet holds six zero bytes at [16+u, 22+u) (remote user,
current password, token challenge), two zero bytes at [24+u+t, 26+u+t) (token
serial number), and from offset 30+u+t to its end at 58+u+t the 28 bytes
0 0, 0 0, 0 0, 0 3 "TCP", 0 7 "WEBTERM", 0 0, 0 3 "TLI", 0 with the texts
translated. -/
theorem auth_packet_constant_parts (tli_stream transID userID secureID : List Nat)
    (hs : tli_stream.length = 100) (hf : 58 + userID.length + secureID.length ≤ 100) :
    ∃ p, wire (auth_packet tli_stream transID userID secureID) = some p ∧
      (p.drop (16 + userID.length)).take 6 = [0, 0, 0, 0, 0, 0] ∧
      (p.drop (24 + userID.length + secureID.length)).take 2 = [0, 0] ∧
      p.drop (30 + userID.length + secureID.length) =
        [0, 0, 0, 0, 0, 0,
         0, 3, ASCIItoEBCDIC (chr 'T'), ASCIItoEBCDIC (chr 'C'), ASCIItoEBCDIC (chr 'P'),
         0, 7, ASCIItoEBCDIC (chr 'W'), ASCIItoEBCDIC (chr 'E'), ASCIItoEBCDIC (chr 'B'),
         ASCIItoEBCDIC (chr 'T'), ASCIItoEBCDIC (chr 'E'), ASCIItoEBCDIC (chr 'R'),
         ASCIItoEBCDIC (chr 'M'),
         0, 0,
         0, 3, ASCIItoEBCDIC (chr 'T'), ASCIItoEBCDIC (chr 'L'), ASCIItoEBCDIC (chr 'I'),
         0] ∧
      p.length = 58 + userID.length + secureID.length := by
  refine ⟨_, wire_auth_packet _ _ _ _ hs hf, ?_, ?_, ?_, auth_wire_length _ _ _⟩
  · rw [auth_wire_nested,
      show 16 + userID.length = 2 + (12 + (2 + (userID.length + 0))) by omega,
      drop_htons, drop_header_bytes, drop_htons, drop_text, List.drop_zero]
    rfl
  · rw [auth_wire_nested,
      show 24 + userID.length + secureID.length =
        2 + (12 + (2 + (userID.length + (6 + (2 + (secureID.length + 0)))))) by omega,
      drop_htons, drop_header_bytes, drop_htons, drop_text, drop_six, drop_htons, drop_text,
      List.drop_zero]
    rfl
  · rw [auth_wire_nested,
      show 30 + userID.length + secureID.length =
        2 + (12 + (2 + (userID.length + (6 + (2 + (secureID.length + (2 + (4 + 0)))))))) by omega,
      drop_htons, drop_header_bytes, drop_htons, drop_text, drop_six, drop_htons, drop_text,
      drop_two, drop_four, List.drop_zero]
    rfl

/-- The constant parts of the authentication packet for "alice" and "123456". -/
theorem auth_packet_constant_parts_witness :
    ∃ p, wire (auth_packet (List.replicate 100 0) (cstr "123456") (cstr "alice")
        (cstr "123456")) = some p ∧
      (p.drop 21).take 6 = [0, 0, 0, 0, 0, 0] ∧ (p.drop 35).take 2 = [0, 0] ∧
      p.drop 41 = [0, 0, 0, 0, 0, 0, 0, 3, 227, 195, 215, 0, 7, 230, 197, 194, 227, 197, 217,
        212, 0, 0, 0, 3, 227, 211, 201, 0] ∧
      p.length = 69 := by
  obtain ⟨p, h1, h2, h3, h4, h5⟩ := auth_packet_constant_parts (List.replicate 100 0)
    (cstr "123456") (cstr "alice") (cstr "123456") (by decide) (by decide)
  exact ⟨p, h1, h2, h3, h4.trans (by decide), h5⟩

/-- C6, amended: for userID of length u and secureID of length t with
58 + u + t ≤ 100, the four bytes [26+u+t, 30+u+t) of the authentication packet
are 0, 2, 0, 11: the 16-bit big-endian length 2 followed by the constant 11
as a 16-bit big-endian value. -/
theorem auth_packet_token_type (tli_stream transID userID secureID : List Nat)
    (hs : tli_stream.length = 100) (hf : 58 + userID.length + secureID.length ≤ 100) :
    ∃ p, wire (auth_packet tli_stream transID userID secureID) = some p ∧
      (p.drop (26 + userID.length + secureID.length)).take 4 = [0, 2, 0, 11] ∧
      be16 0 2 = 2 ∧ be16 0 11 = 11 := by
  refine ⟨_, wire_auth_packet _ _ _ _ hs hf, ?_, rfl, rfl⟩
  rw [auth_wire_nested,
    show 26 + userID.length + secureID.length =
      2 + (12 + (2 + (userID.length + (6 + (2 + (secureID.length + (2 + 0))))))) by omega,
    drop_htons, drop_header_bytes, drop_htons, drop_text, drop_six, drop_htons, drop_text,
    drop_two, List.drop_zero]
  rfl

/-- The token-type field of the authentication packet for "alice" and "123456". -/
theorem auth_packet_token_type_witness :
    (wire (auth_packet (List.replicate 100 0) (cstr "123456") (cstr "alice")
      (cstr "123456"))).map (fun p => (p.drop 37).take 4) = some [0, 2, 0, 11] := by
  obtain ⟨p, h1, h2, -⟩ := auth_packet_token_type (List.replicate 100 0)
    (cstr "123456") (cstr "alice") (cstr "123456") (by decide) (by decide)
  rw [h1]
  exact congrArg some h2

/-- C6 as stated fails: for userID "alice" and secureID "123456" the four bytes
at [37, 41) are 0, 2, 0, 11, so the two bytes before the constant 11 are not
a zero tag. -/
theorem auth_packet_token_type_tag_not_zero :
    (wire (auth_packet (List.replicate 100 0) (cstr "123456") (cstr "alice")
      (cstr "123456"))).map (fun p => (p.drop (26 + 5 + 6)).take 4) = some [0, 2, 0, 11] ∧
    (wire (auth_packet (List.replicate 100 0) (cstr "123456") (cstr "alice")
      (cstr "123456"))).map (fun p => (p.drop (26 + 5 + 6)).take 4) ≠ some [0, 0, 0, 11] := by
  rw [wire_auth_packet _ _ _ _ (by decide) (by decide)]
  decide

/-- C7: for both packets the length patch leaves bytes 0 and 1 reading, big-endian,
the final value L of `tli_index`, with L = 28 + a for the handshake and
L = 58 + u + t for the authentication packet; every other byte of the array is
as it was before the patch; and the two packets sent by `twofactor` are the
first L bytes of the array, so L is also the count passed to `send`. -/
theorem length_patch_total_length (tli_stream transID appID userID secureID : List Nat)
    (hs : tli_stream.length = 100) (ha : 28 + appID.length ≤ 100)
    (hf : 58 + userID.length + secureID.length ≤ 100) :
    (∃ b a, handshake_body tli_stream transID appID = .ok (b, 28 + appID.length) ∧
      handshake_packet tli_stream transID appID = .ok (a, 28 + appID.length) ∧
      be16 (a.getD 0 0) (a.getD 1 0) = 28 + appID.length ∧
      a.length = b.length ∧ a.drop 2 = b.drop 2) ∧
    (∃ b a, auth_body tli_stream transID userID secureID =
        .ok (b, 58 + userID.length + secureID.length) ∧
      auth_packet tli_stream transID userID secureID =
        .ok (a, 58 + userID.length + secureID.length) ∧
      be16 (a.getD 0 0) (a.getD 1 0) = 58 + userID.length + secureID.length ∧
      a.length = b.length ∧ a.drop 2 = b.drop 2) ∧
    (∀ env : Env, env.transID = transID → all_succeed env →
      ∃ p1 p2, sent_packets (twofactor env appID userID secureID).trace = [p1, p2] ∧
        wire (handshake_packet tli_stream transID appID) = some p1 ∧
        wire (auth_packet tli_stream transID userID secureID) = some p2 ∧
        p1.length = 28 + appID.length ∧
        p2.length = 58 + userID.length + secureID.length) := by
  refine ⟨⟨_, _, handshake_body_eq _ _ _ hs ha, handshake_packet_eq _ _ _ hs ha, ?_, ?_, ?_⟩,
    ⟨_, _, auth_body_eq _ _ _ _ hs hf, auth_packet_eq _ _ _ _ hs hf, ?_, ?_, ?_⟩, ?_⟩
  · rw [List.append_assoc]
    exact be16_htons _ _ (by omega)
  · simp [htons]
  · rw [List.append_assoc, List.append_assoc]
    rfl
  · rw [List.append_assoc]
    exact be16_htons _ _ (by omega)
  · simp [htons]
  · rw [List.append_assoc, List.append_assoc]
    rfl
  · intro env he hok
    refine ⟨handshake_wire transID appID, auth_wire transID userID secureID, ?_,
      wire_handshake_packet _ _ _ hs ha, wire_auth_packet _ _ _ _ hs hf,
      handshake_wire_length _ _, auth_wire_length _ _ _⟩
    rw [twofactor, twofactorprocessing_eq env appID userID secureID ha hf,
      session_with_sent env _ _ hok, he]

/-- In scenario A the two packets sent have 32 and 69 bytes. -/
theorem length_patch_total_length_witness :
    ∃ p1 p2, sent_packets (twofactor scenario_A (cstr "APP1") (cstr "alice")
        (cstr "123456")).trace = [p1, p2] ∧ p1.length = 32 ∧ p2.length = 69 := by
  obtain ⟨p1, p2, h1, -, -, h4, h5⟩ := (length_patch_total_length (List.replicate 100 0)
    (cstr "123456") (cstr "APP1") (cstr "alice") (cstr "123456") (by decide) (by decide)
    (by decide)).2.2 scenario_A rfl (by decide)
  exact ⟨p1, p2, h1, h4, h5⟩

/-- C8: on every 100-byte array, six-byte transaction id and exchange code c,
`build_header` returns 14 and leaves the translated "OS" at [2,4), the
translated transaction id at [4,10), the translated "SE" at [10,12), the
translated "0" at 12 and the translated c at 13; byte 13 is the translated
"0" in the handshake packet and the translated "3" in the authentication
packet. -/
theorem build_header_layout (hdr tid : List Nat) (c : Nat) (hh : hdr.length = 100)
    (ht : tid.length = 6) :
    (∃ a, build_header hdr tid c = .ok (a, 14) ∧ a.length = 100 ∧
      (a.drop 2).take 2 = [ASCIItoEBCDIC (chr 'O'), ASCIItoEBCDIC (chr 'S')] ∧
      (a.drop 4).take 6 = tid.map ASCIItoEBCDIC ∧
      (a.drop 10).take 2 = [ASCIItoEBCDIC (chr 'S'), ASCIItoEBCDIC (chr 'E')] ∧
      a.getD 12 0 = ASCIItoEBCDIC (chr '0') ∧
      a.getD 13 0 = ASCIItoEBCDIC c) ∧
    (∀ appID : List Nat, 28 + appID.length ≤ 100 →
      ∃ p, wire (handshake_packet hdr tid appID) = some p ∧
        p.getD 13 0 = ASCIItoEBCDIC (chr '0')) ∧
    (∀ userID secureID : List Nat, 58 + userID.length + secureID.length ≤ 100 →
      ∃ p, wire (auth_packet hdr tid userID secureID) = some p ∧
        p.getD 13 0 = ASCIItoEBCDIC (chr '3')) := by
  have hb : ∀ c, header_bytes tid c = [ASCIItoEBCDIC (chr 'O'), ASCIItoEBCDIC (chr 'S')] ++
      (tid.map ASCIItoEBCDIC ++ [ASCIItoEBCDIC (chr 'S'), ASCIItoEBCDIC (chr 'E'),
        ASCIItoEBCDIC (chr '0'), ASCIItoEBCDIC c]) := by
    intro c
    simp [header_bytes, tid_bytes_eq_map tid ht]
  obtain ⟨t0, t1, t2, t3, t4, t5, rfl⟩ : ∃ t0 t1 t2 t3 t4 t5, tid = [t0, t1, t2, t3, t4, t5] := by
    match tid, ht with
    | [t0, t1, t2, t3, t4, t5], _ => exact ⟨t0, t1, t2, t3, t4, t5, rfl⟩
  refine ⟨?_, ?_, ?_⟩
  · obtain ⟨h0, h1, rest, rfl⟩ : ∃ h0 h1 rest, hdr = h0 :: h1 :: rest := by
      match hdr, hh with
      | h0 :: h1 :: rest, _ => exact ⟨h0, h1, rest, rfl⟩
    refine ⟨_, build_header_append _ _ c (by omega), ?_, ?_⟩
    · simp [header_bytes_length] at hh ⊢
      omega
    · simp [hb]
  · intro appID ha
    refine ⟨_, wire_handshake_packet _ _ _ hh ha, ?_⟩
    simp [handshake_wire, handshake_fields, hb, htons]
  · intro userID secureID hf
    refine ⟨_, wire_auth_packet _ _ _ _ hh hf, ?_⟩
    simp [auth_wire, auth_fields, hb, htons]

/-- The header for transaction id "123456" and exchange code "3" ends in 243. -/
theorem build_header_layout_witness :
    ∃ a, build_header (List.replicate 100 70) (cstr "123456") (chr '3') = .ok (a, 14) ∧
      a.getD 13 0 = 243 := by
  obtain ⟨a, h1, -, -, -, -, -, h7⟩ := (build_header_layout (List.replicate 100 70)
    (cstr "123456") (chr '3') (by decide) (by decide)).1
  exact ⟨a, h1, h7.trans (by decide)⟩

/-! ## Character translation -/

set_option maxRecDepth 100000 in
/-- C9: for every byte b, `EBCDICtoASCII (ASCIItoEBCDIC b) = b` and
`ASCIItoEBCDIC (EBCDICtoASCII b) = b`, both functions map bytes to bytes and
both tables have 256 entries, so the tables are mutually inverse
permutations; in particular on the characters of the literal tags. -/
theorem tables_mutually_inverse :
    (∀ b : Fin 256, EBCDICtoASCII (ASCIItoEBCDIC b.val) = b.val ∧
      ASCIItoEBCDIC (EBCDICtoASCII b.val) = b.val ∧
      ASCIItoEBCDIC b.val < 256 ∧ EBCDICtoASCII b.val < 256) ∧
    a2e.length = 256 ∧ e2a.length = 256 ∧
    (cstr "OSENCTLIPWBRM013").map (fun c => EBCDICtoASCII (ASCIItoEBCDIC c)) =
      cstr "OSENCTLIPWBRM013" ∧
    (cstr "OSENCTLIPWBRM013").map (fun c => ASCIItoEBCDIC (EBCDICtoASCII c)) =
      cstr "OSENCTLIPWBRM013" := by
  decide

set_option maxRecDepth 100000 in
/-- C10: `ASCIItoEBCDIC` sends space to 0x40, the digits to 0xF0..0xF9, A..I to
0xC1..0xC9, J..R to 0xD1..0xD9, S..Z to 0xE2..0xE9, a..i to 0x81..0x89, j..r to
0x91..0x99 and s..z to 0xA2..0xA9, and `EBCDICtoASCII` maps each of these
values back to the character. -/
theorem tables_alphanumerics :
    ASCIItoEBCDIC 0x20 = 0x40 ∧
    (cstr "0123456789").map ASCIItoEBCDIC =
      [0xF0, 0xF1, 0xF2, 0xF3, 0xF4, 0xF5, 0xF6, 0xF7, 0xF8, 0xF9] ∧
    (cstr "ABCDEFGHI").map ASCIItoEBCDIC =
      [0xC1, 0xC2, 0xC3, 0xC4, 0xC5, 0xC6, 0xC7, 0xC8, 0xC9] ∧
    (cstr "JKLMNOPQR").map ASCIItoEBCDIC =
      [0xD1, 0xD2, 0xD3, 0xD4, 0xD5, 0xD6, 0xD7, 0xD8, 0xD9] ∧
    (cstr "STUVWXYZ").map ASCIItoEBCDIC =
      [0xE2, 0xE3, 0xE4, 0xE5, 0xE6, 0xE7, 0xE8, 0xE9] ∧
    (cstr "abcdefghi").map ASCIItoEBCDIC =
      [0x81, 0x82, 0x83, 0x84, 0x85, 0x86, 0x87, 0x88, 0x89] ∧
    (cstr "jklmnopqr").map ASCIItoEBCDIC =
      [0x91, 0x92, 0x93, 0x94, 0x95, 0x96, 0x97, 0x98, 0x99] ∧
    (cstr "stuvwxyz").map ASCIItoEBCDIC =
      [0xA2, 0xA3, 0xA4, 0xA5, 0xA6, 0xA7, 0xA8, 0xA9] ∧
    (cstr " 0123456789ABCDEFGHIJKLMNOPQRSTUVWXYZabcdefghijklmnopqrstuvwxyz").map
        (fun c => EBCDICtoASCII (ASCIItoEBCDIC c)) =
      cstr " 0123456789ABCDEFGHIJKLMNOPQRSTUVWXYZabcdefghijklmnopqrstuvwxyz" := by
  decide

/-! ## Stores outside the array -/

theorem bind_error {α β : Type} (e : Fault) (f : α → Except Fault β) :
    ((Except.error e : Except Fault α) >>= f) = .error e := rfl

theorem puts_overflow (vs : List Nat) : ∀ (pre rest : List Nat) (i : Nat),
    pre.length = i → rest.length < vs.length →
    puts (pre ++ rest, i) vs = .error (.outOfBounds (i + rest.length)) := by
  induction vs with
  | nil => intro pre rest i _ h; simp at h
  | cons v vs ih =>
    intro pre rest i hi hr
    cases rest with
    | nil =>
      subst hi
      simp [puts, put, store, bind_error]
    | cons x rest =>
      simp only [List.length_cons] at hr
      rw [puts, put_append pre (x :: rest) i v hi (by simp), bind_ok,
        ih (pre ++ [v]) _ (i + 1) (by simp [hi]) (by simp; omega)]
      simp
      omega

theorem store_short_overflow (pre rest : List Nat) (i n : Nat) (hi : pre.length = i)
    (hr : rest.length < 2) :
    store_short (pre ++ rest) i n = .error (.outOfBounds (i + rest.length)) := by
  subst hi
  match rest, hr with
  | [], _ => simp [store_short, store]; rfl
  | [x], _ => simp [store_short, store, bind_ok]

theorem text_field_overflow (pre rest text : List Nat) (i : Nat) (hi : pre.length = i)
    (hr : rest.length < 2 + text.length) :
    ∃ j, i + rest.length ≤ j ∧ text_field (pre ++ rest, i) text = .error (.outOfBounds j) := by
  by_cases h2 : 2 ≤ rest.length
  · refine ⟨i + rest.length, Nat.le_refl _, ?_⟩
    have hsplit : pre ++ rest = (pre ++ rest.take 2) ++ rest.drop 2 := by simp
    simp only [text_field]
    rw [text_loop_eq, hsplit,
      puts_overflow _ _ _ (i + 1 + 1) (by simp [hi]; omega) (by simp; omega), bind_error]
    simp
    omega
  · cases text with
    | nil =>
      refine ⟨i + rest.length, Nat.le_refl _, ?_⟩
      simp only [text_field, text_loop, pure, Except.pure, bind_ok]
      rw [store_short_overflow pre rest i _ hi (by omega), bind_error]
    | cons c cs =>
      refine ⟨i + 1 + 1, by omega, ?_⟩
      subst hi
      simp only [text_field, text_loop, put, store]
      rw [if_neg (by simp; omega)]
      rfl

theorem handshake_body_overflow (tli_stream transID appID : List Nat)
    (hs : tli_stream.length = 100) (ha : 72 < appID.length) :
    ∃ j, 100 ≤ j ∧ handshake_body tli_stream transID appID = .error (.outOfBounds j) := by
  have hl := header_bytes_length transID (chr '0')
  have hsys : sysID.length = 5 := by decide
  simp only [handshake_body]
  rw [clear_array_eq _ hs, bind_ok, build_header_append _ _ _ (by simp), bind_ok]
  by_cases h1 : appID.length ≤ 84
  · rw [text_field_append _ _ _ 14 (by simp [hl]) (by simp; omega), bind_ok]
    by_cases h2 : appID.length ≤ 77
    · rw [text_field_append _ _ _ (14 + 2 + appID.length) (by simp [hl, htons]; omega)
        (by simp [hsys]; omega), bind_ok, handshake_trailer_eq,
        puts_overflow _ _ _ _ (by simp [hl, htons, hsys]; omega) (by simp [hsys]; omega)]
      exact ⟨_, by simp [hsys]; omega, rfl⟩
    · obtain ⟨j, hj, he⟩ := text_field_overflow
        ((List.take 2 (List.replicate 100 70) ++ header_bytes transID (chr '0') ++
          htons appID.length) ++ appID.map ASCIItoEBCDIC)
        (List.drop (2 + appID.length) (List.drop 14 (List.replicate 100 70))) sysID
        (14 + 2 + appID.length) (by simp [hl, htons]; omega) (by simp [hsys]; omega)
      rw [he, bind_error]
      exact ⟨j, by simp at hj; omega, rfl⟩
  · obtain ⟨j, hj, he⟩ := text_field_overflow
      (List.take 2 (List.replicate 100 70) ++ header_bytes transID (chr '0'))
      (List.drop 14 (List.replicate 100 70)) appID 14 (by simp [hl]) (by simp; omega)
    rw [he, bind_error]
    exact ⟨j, by simp at hj; omega, rfl⟩

theorem handshake_packet_overflow (tli_stream transID appID : List Nat)
    (hs : tli_stream.length = 100) (ha : 72 < appID.length) :
    ∃ j, 100 ≤ j ∧ handshake_packet tli_stream transID appID = .error (.outOfBounds j) := by
  obtain ⟨j, hj, he⟩ := handshake_body_overflow tli_stream transID appID hs ha
  exact ⟨j, hj, by rw [handshake_packet, he, bind_error]⟩

theorem auth_body_overflow (tli_stream transID userID secureID : List Nat)
    (hs : tli_stream.length = 100) (hf : 42 < userID.length + secureID.length) :
    ∃ j, 100 ≤ j ∧
      auth_body tli_stream transID userID secureID = .error (.outOfBounds j) := by
  have hl := header_bytes_length transID (chr '3')
  have htr : auth_trailer_bytes.length = 28 := by decide
  simp only [auth_body]
  rw [clear_array_eq _ hs, bind_ok, build_header_append _ _ _ (by simp), bind_ok]
  by_cases h1 : userID.length ≤ 84
  · rw [text_field_append _ _ _ 14 (by simp [hl]) (by simp; omega), bind_ok, auth_unused_eq]
    by_cases h2 : userID.length ≤ 78
    · rw [puts_append _ _ _ _ (by simp [hl, htons]; omega) (by simp; omega), bind_ok]
      by_cases h3 : userID.length + secureID.length ≤ 76
      · rw [text_field_append _ _ _ _ (by simp [hl, htons]; omega) (by simp; omega), bind_ok,
          auth_token_type_eq]
        by_cases h4 : userID.length + secureID.length ≤ 70
        · rw [puts_append _ _ _ _ (by simp [hl, htons]; omega) (by simp; omega), bind_ok,
            auth_trailer_eq,
            puts_overflow _ _ _ _ (by simp [hl, htons]; omega) (by simp [htr]; omega)]
          exact ⟨_, by simp; omega, rfl⟩
        · rw [puts_overflow _ _ _ _ (by simp [hl, htons]; omega) (by simp; omega), bind_error]
          exact ⟨_, by simp; omega, rfl⟩
      · obtain ⟨j, hj, he⟩ := text_field_overflow
          ((((List.take 2 (List.replicate 100 70) ++ header_bytes transID (chr '3') ++
            htons userID.length) ++ userID.map ASCIItoEBCDIC) ++ [0, 0, 0, 0, 0, 0]))
          (List.drop 6 (List.drop (2 + userID.length) (List.drop 14 (List.replicate 100 70))))
          secureID (14 + 2 + userID.length + 6) (by simp [hl, htons]; omega) (by simp; omega)
        rw [show [0, 0, 0, 0, 0, 0].length = 6 from rfl, he, bind_error]
        exact ⟨j, by simp at hj; omega, rfl⟩
    · rw [puts_overflow _ _ _ _ (by simp [hl, htons]; omega) (by simp; omega), bind_error]
      exact ⟨_, by simp; omega, rfl⟩
  · obtain ⟨j, hj, he⟩ := text_field_overflow
      (List.take 2 (List.replicate 100 70) ++ header_bytes transID (chr '3'))
      (List.drop 14 (List.replicate 100 70)) userID 14 (by simp [hl]) (by simp; omega)
    rw [he, bind_error]
    exact ⟨j, by simp at hj; omega, rfl⟩

theorem auth_packet_overflow (tli_stream transID userID secureID : List Nat)
    (hs : tli_stream.length = 100) (hf : 42 < userID.length + secureID.length) :
    ∃ j, 100 ≤ j ∧
      auth_packet tli_stream transID userID secureID = .error (.outOfBounds j) := by
  obtain ⟨j, hj, he⟩ := auth_body_overflow tli_stream transID userID secureID hs hf
  exact ⟨j, hj, by rw [auth_packet, he, bind_error]⟩

/-! ## Calls of a session -/

theorem session_with_calls (env : Env) (p1 p2 : List Nat) :
    without_cleanup (session_with env p1 p2).trace =
      (session_calls env.socket p1 p2).take (calls_made (first_failure env)) ∧
    socket_closes (session_with env p1 p2).trace =
      List.replicate (closes_made (first_failure env)) env.socket := by
  simp only [session_with, first_failure, step_failures, session_calls]
  by_cases h1 : env.WSAStartup ≠ 0
  · simp [h1, without_cleanup, socket_closes, calls_made, closes_made,
      socket_close]
  by_cases h2 : LOBYTE env.wVersion ≠ 1 ∨ HIBYTE env.wVersion ≠ 1
  · simp [h1, h2, without_cleanup, socket_closes, calls_made, closes_made,
      socket_close]
  by_cases h3 : env.socket < 0
  · simp [h1, h2, h3, without_cleanup, socket_closes, calls_made, closes_made,
      socket_close]
  by_cases h4 : env.gethostbyname = false
  · simp [h1, h2, h3, h4, without_cleanup, socket_closes, calls_made, closes_made,
      socket_close]
  by_cases h5 : env.connect < 0
  · simp [h1, h2, h3, h4, h5, without_cleanup, socket_closes, calls_made, closes_made,
      socket_close]
  by_cases h6 : env.send_handshake < 0
  · simp [h1, h2, h3, h4, h5, h6, without_cleanup, socket_closes, calls_made, closes_made,
      socket_close]
  cases h7 : env.recv_handshake with
  | none =>
    simp [h1, h2, h3, h4, h5, h6, h7, without_cleanup, socket_closes, calls_made, closes_made,
      socket_close]
  | some d1 =>
    by_cases h8 : env.send_auth < 0
    · simp [h1, h2, h3, h4, h5, h6, h7, h8, without_cleanup, socket_closes, calls_made, closes_made,
        socket_close]
    cases h9 : env.recv_auth with
    | none =>
      simp [h1, h2, h3, h4, h5, h6, h7, h8, h9, without_cleanup, socket_closes, calls_made, closes_made,
        socket_close]
    | some d2 =>
      simp [h1, h2, h3, h4, h5, h6, h7, h8, h9, without_cleanup, socket_closes, calls_made, closes_made,
        socket_close]

theorem session_with_first_failure (env : Env) (p1 p2 : List Nat) (c : Nat)
    (h : first_failure env = some c) : (session_with env p1 p2).returncode = .ok c := by
  revert h
  simp only [session_with, first_failure, step_failures]
  by_cases h1 : env.WSAStartup ≠ 0
  · simp [h1]
  by_cases h2 : LOBYTE env.wVersion ≠ 1 ∨ HIBYTE env.wVersion ≠ 1
  · simp [h1, h2]
  by_cases h3 : env.socket < 0
  · simp [h1, h2, h3]
  by_cases h4 : env.gethostbyname = false
  · simp [h1, h2, h3, h4]
  by_cases h5 : env.connect < 0
  · simp [h1, h2, h3, h4, h5]
  by_cases h6 : env.send_handshake < 0
  · simp [h1, h2, h3, h4, h5, h6]
  cases h7 : env.recv_handshake with
  | none => simp [h1, h2, h3, h4, h5, h6, h7]
  | some d1 =>
    by_cases h8 : env.send_auth < 0
    · simp [h1, h2, h3, h4, h5, h6, h7, h8]
    cases h9 : env.recv_auth with
    | none => simp [h1, h2, h3, h4, h5, h6, h7, h8, h9]
    | some d2 => simp [h1, h2, h3, h4, h5, h6, h7, h8, h9]

theorem twofactor_socket_closes (env : Env) (appID userID secureID : List Nat)
    (ha : 28 + appID.length ≤ 100) (hf : 58 + userID.length + secureID.length ≤ 100) :
    socket_closes (twofactor env appID userID secureID).trace =
      List.replicate (closes_made (first_failure env)) env.socket := by
  rw [twofactor, twofactorprocessing_eq env appID userID secureID ha hf]
  exact (session_with_calls env _ _).2

theorem sent_packets_without_cleanup (t : List Event) :
    sent_packets (without_cleanup t) = sent_packets t := by
  induction t with
  | nil => rfl
  | cons e t ih =>
    cases e <;> simp [sent_packets, without_cleanup, List.filter_cons] at ih ⊢ <;> exact ih

theorem auth_packet_any (x transID userID secureID : List Nat) (hx : x.length = 100) :
    auth_packet x transID userID secureID =
      auth_packet (List.replicate 100 70) transID userID secureID := by
  simp only [auth_packet, auth_body, clear_array_eq _ hx,
    clear_array_eq _ (List.length_replicate 100 70)]

theorem header_slice (n c : Nat) (tid rest : List Nat) :
    ((htons n ++ (header_bytes tid c ++ rest)).drop 4).take 6 = tid_bytes tid := by
  have h6 : (tid_bytes tid).length = 6 := by simp [tid_bytes]
  simp only [htons, header_bytes, List.cons_append, List.nil_append, List.append_assoc,
    List.drop_succ_cons, List.drop_zero]
  exact List.take_left' h6

theorem recv_into_short (data : List Nat) (hk : data.length ≤ 100) :
    recv_into (List.replicate 100 (chr 'F')) data =
      data ++ List.replicate (100 - data.length) (chr 'F') := by
  have h1 : data.take 100 = data := List.take_of_length_le hk
  simp only [recv_into, h1, List.drop_replicate]

/-! ## Capacity, cleanup and the order of calls -/

set_option maxRecDepth 1000000 in
/-- C11 fails on the code: with an appID of 73 characters, an input the header
comment documents as valid ("no max length"), the handshake build reaches
the store `tli_stream[100] = ASCIItoEBCDIC('1')` of line 250 with no check and
no error, so `twofactor` leaves defined behaviour there; run on an array with
one more byte behind it, the same code overwrites that byte, leaves
`tli_index` at 101 and hands 101 bytes to `send`. -/
theorem handshake_overflow_store_at_100 :
    handshake_packet (List.replicate 100 0) (cstr "123456") (List.replicate 73 (chr 'A')) =
      .error (.outOfBounds 100) ∧
    (twofactor scenario_A (List.replicate 73 (chr 'A')) (cstr "alice")
      (cstr "123456")).returncode = .error (.outOfBounds 100) ∧
    ((handshake_packet (List.replicate 100 0 ++ [0]) (cstr "123456")
      (List.replicate 73 (chr 'A'))).toOption.map fun s => (s.1.getD 100 0, s.2)) =
      some (ASCIItoEBCDIC (chr '1'), 101) ∧
    (wire (handshake_packet (List.replicate 100 0 ++ [0]) (cstr "123456")
      (List.replicate 73 (chr 'A')))).map List.length = some 101 := by
  decide

/-- C12 fails on the code-40 path: when the gateway address does not resolve,
`twofactor` returns 40 after `WSAStartup`, `socket` and `gethostbyname` and
never closes the socket it created; the sibling path of a refused connection
returns 50 and closes socket 3 once. -/
theorem twofactor_code_40_skips_socket_close :
    (twofactor scenario_C (cstr "APP1") (cstr "alice") (cstr "123456")).returncode = .ok 40 ∧
    (twofactor scenario_C (cstr "APP1") (cstr "alice") (cstr "123456")).trace =
      [.WSAStartup, .socket, .gethostbyname] ∧
    socket_closes (twofactor scenario_C (cstr "APP1") (cstr "alice") (cstr "123456")).trace =
      [] ∧
    (twofactor scenario_D (cstr "APP1") (cstr "alice") (cstr "123456")).returncode = .ok 50 ∧
    socket_closes (twofactor scenario_D (cstr "APP1") (cstr "alice") (cstr "123456")).trace =
      [3] := by
  decide

/-- C13: the library calls of one invocation, the cleanup calls of `socket_close`
aside, are an initial part of the sequence WSAStartup, socket, gethostbyname,
connect, send, recv, send, recv that ends with the first failing call; when
the address does not resolve the result is 40 and there is no connect, when
connect fails there is no send or recv, and when the handshake send or
receive fails only the handshake packet is sent.  The texts are unrestricted
on every run that ends before `tli_stream` is used; a packet is assumed to
fit the array only on the runs that build it. -/
theorem no_call_after_failure (env : Env) (appID userID secureID : List Nat)
    (ha : connected env → 28 + appID.length ≤ 100)
    (hf : connected env → 0 ≤ env.send_handshake → env.recv_handshake.isSome = true →
      58 + userID.length + secureID.length ≤ 100) :
    without_cleanup (twofactor env appID userID secureID).trace =
      (session_calls env.socket (handshake_wire env.transID appID)
        (auth_wire env.transID userID secureID)).take (calls_made (first_failure env)) ∧
    (first_failure env = some 40 →
      (twofactor env appID userID secureID).returncode = .ok 40 ∧
      without_cleanup (twofactor env appID userID secureID).trace =
        [.WSAStartup, .socket, .gethostbyname]) ∧
    (first_failure env = some 50 →
      without_cleanup (twofactor env appID userID secureID).trace =
        [.WSAStartup, .socket, .gethostbyname, .connect env.socket]) ∧
    (first_failure env = some 60 ∨ first_failure env = some 65 →
      sent_packets (twofactor env appID userID secureID).trace =
        [handshake_wire env.transID appID]) := by
  have hmain : without_cleanup (twofactor env appID userID secureID).trace =
      (session_calls env.socket (handshake_wire env.transID appID)
        (auth_wire env.transID userID secureID)).take (calls_made (first_failure env)) := by
    rw [twofactor, twofactorprocessing_eq_reached env appID userID secureID ha hf]
    exact (session_with_calls env _ _).1
  refine ⟨hmain, ?_, ?_, ?_⟩
  · intro h
    refine ⟨?_, ?_⟩
    · rw [twofactor, twofactorprocessing_eq_reached env appID userID secureID ha hf]
      exact session_with_first_failure env _ _ 40 h
    · rw [hmain, h]; rfl
  · intro h
    rw [hmain, h]; rfl
  · intro h
    rw [← sent_packets_without_cleanup, hmain]
    rcases h with h | h <;> rw [h] <;> rfl

/-- Scenario C of the specification, with an appID of 73 characters: after the
failed resolution no connect is made. -/
theorem no_call_after_failure_witness :
    without_cleanup (twofactor scenario_C (List.replicate 73 (chr 'A')) (cstr "alice")
      (cstr "123456")).trace = [.WSAStartup, .socket, .gethostbyname] :=
  ((no_call_after_failure scenario_C (List.replicate 73 (chr 'A')) (cstr "alice")
    (cstr "123456") (fun h => absurd h (by decide))
    (fun h _ _ => absurd h (by decide))).2.1 (by decide)).2

/-- C14: bytes [4,10) of the handshake packet and of the authentication packet
are equal, both the translations of the six bytes of `transID`, and these
are the two packets `twofactor` sends. -/
theorem transaction_id_shared (s1 s2 transID appID userID secureID : List Nat)
    (hs1 : s1.length = 100) (hs2 : s2.length = 100) (ha : 28 + appID.length ≤ 100)
    (hf : 58 + userID.length + secureID.length ≤ 100) :
    ∃ p1 p2, wire (handshake_packet s1 transID appID) = some p1 ∧
      wire (auth_packet s2 transID userID secureID) = some p2 ∧
      (p1.drop 4).take 6 = (p2.drop 4).take 6 ∧
      (p1.drop 4).take 6 = (List.range 6).map (fun x => ASCIItoEBCDIC (transID.getD x 0)) ∧
      (transID.length = 6 → (p1.drop 4).take 6 = transID.map ASCIItoEBCDIC) ∧
      (∀ env : Env, env.transID = transID → all_succeed env →
        sent_packets (twofactor env appID userID secureID).trace = [p1, p2]) := by
  have e1 : ((handshake_wire transID appID).drop 4).take 6 = tid_bytes transID := by
    rw [handshake_wire_nested]; exact header_slice _ _ _ _
  have e2 : ((auth_wire transID userID secureID).drop 4).take 6 = tid_bytes transID := by
    rw [auth_wire_nested]; exact header_slice _ _ _ _
  refine ⟨_, _, wire_handshake_packet _ _ _ hs1 ha, wire_auth_packet _ _ _ _ hs2 hf, ?_, ?_,
    ?_, ?_⟩
  · rw [e1, e2]
  · rw [e1]; rfl
  · intro ht
    rw [e1, tid_bytes_eq_map _ ht]
  · intro env he hok
    rw [twofactor, twofactorprocessing_eq env appID userID secureID ha hf,
      session_with_sent env _ _ hok, he]

/-- In scenario A both packets sent carry the same bytes at [4,10). -/
theorem transaction_id_shared_witness :
    ∃ p1 p2, sent_packets (twofactor scenario_A (cstr "APP1") (cstr "alice")
        (cstr "123456")).trace = [p1, p2] ∧ (p1.drop 4).take 6 = (p2.drop 4).take 6 := by
  obtain ⟨p1, p2, -, -, h3, -, -, h6⟩ := transaction_id_shared (List.replicate 100 0)
    (List.replicate 100 0) (cstr "123456") (cstr "APP1") (cstr "alice") (cstr "123456")
    (by decide) (by decide) (by decide) (by decide)
  exact ⟨p1, p2, h6 scenario_A rfl (by decide), h3⟩

/-- C15: two runs of `twofactor` that differ only in the bytes delivered by the
handshake receive make the same library calls with the same packets and
return the same result. -/
theorem handshake_reply_ignored (env : Env) (r1 r2 appID userID secureID : List Nat) :
    twofactor { env with recv_handshake := some r1 } appID userID secureID =
      twofactor { env with recv_handshake := some r2 } appID userID secureID := by
  have hp : ∀ r, auth_packet (recv_into (List.replicate 100 70) r) env.transID userID secureID =
      auth_packet (List.replicate 100 70) env.transID userID secureID :=
    fun r => auth_packet_any _ _ _ _ (recv_into_length _ _ (by simp))
  by_cases ha : 28 + appID.length ≤ 100
  · have hc1 : clear_array (handshake_wire env.transID appID ++
        List.replicate (72 - appID.length) 70) = .ok (List.replicate 100 70) :=
      clear_array_eq _ (by simp [handshake_wire_length]; omega)
    have hh := handshake_packet_wire (List.replicate 100 0) env.transID appID
      (List.length_replicate 100 0) ha
    unfold twofactor twofactorprocessing
    dsimp only
    rw [hh]
    dsimp only
    rw [hc1]
    dsimp only
    rw [hp r1, hp r2]
  · obtain ⟨j, -, he⟩ := handshake_packet_overflow (List.replicate 100 0) env.transID appID
      (List.length_replicate 100 0) (by omega)
    unfold twofactor twofactorprocessing
    dsimp only
    rw [he]

/-- C16: with a userID of at most 20 and a secureID of at most 16 characters the
authentication packet is built with every store inside the array and the
final `tli_index` is at most 94; the handshake packet is built with every
store inside the array exactly when the appID has at most 72 characters,
and otherwise a store at an index of 100 or more is reached.  (A store
returns exactly when its index is inside the array.) -/
theorem stores_within_array (tli_stream transID appID userID secureID : List Nat)
    (hs : tli_stream.length = 100) :
    (userID.length ≤ 20 → secureID.length ≤ 16 →
      (∃ a, auth_packet tli_stream transID userID secureID =
          .ok (a, 58 + userID.length + secureID.length)) ∧
        58 + userID.length + secureID.length ≤ 94) ∧
    ((∃ r, handshake_packet tli_stream transID appID = .ok r) ↔ appID.length ≤ 72) ∧
    (72 < appID.length → ∃ j, 100 ≤ j ∧
      handshake_packet tli_stream transID appID = .error (.outOfBounds j)) ∧
    (∀ (a : List Nat) (i v : Nat), (∃ a', store a i v = .ok a') ↔ i < a.length) := by
  refine ⟨?_, ?_, handshake_packet_overflow _ _ _ hs, ?_⟩
  · intro hu ht
    exact ⟨⟨_, auth_packet_eq _ _ _ _ hs (by omega)⟩, by omega⟩
  · constructor
    · rintro ⟨r, hr⟩
      by_contra hc
      obtain ⟨j, -, he⟩ := handshake_packet_overflow tli_stream transID appID hs (by omega)
      rw [he] at hr
      cases hr
    · intro ha
      exact ⟨_, handshake_packet_eq _ _ _ hs (by omega)⟩
  · intro a i v
    by_cases h : i < a.length <;> simp [store, h]

/-- A userID of 20 and a secureID of 16 characters: the packet ends at 94. -/
theorem stores_within_array_witness :
    ∃ a, auth_packet (List.replicate 100 0) (cstr "123456") (List.replicate 20 (chr 'u'))
      (List.replicate 16 (chr '7')) = .ok (a, 58 + 20 + 16) :=
  ((stores_within_array (List.replicate 100 0) (cstr "123456") (cstr "APP1")
    (List.replicate 20 (chr 'u')) (List.replicate 16 (chr '7')) (by decide)).1
    (by decide) (by decide)).1

/-- C17: when every library call succeeds and the authentication receive delivers
fewer than 22 bytes, `twofactor` returns 1 and not 0: the array holding the
request is refilled with 'F' before the receive, so the array decoded is the
delivered bytes followed by 'F', and its byte 21 is 'F'. -/
theorem short_reply_not_authenticated (env : Env) (appID userID secureID data : List Nat)
    (hok : all_succeed env) (hd : env.recv_auth = some data) (hk : data.length < 22)
    (ha : 28 + appID.length ≤ 100) (hf : 58 + userID.length + secureID.length ≤ 100) :
    (twofactor env appID userID secureID).returncode = .ok 1 ∧
    (twofactor env appID userID secureID).returncode ≠ .ok 0 ∧
    (∃ a i, auth_packet (List.replicate 100 (chr 'F')) env.transID userID secureID = .ok (a, i) ∧
      clear_array a = .ok (List.replicate 100 (chr 'F'))) ∧
    recv_into (List.replicate 100 (chr 'F')) data =
      data ++ List.replicate (100 - data.length) (chr 'F') ∧
    (recv_into (List.replicate 100 (chr 'F')) data).getD 21 0 = chr 'F' := by
  have hF : chr 'F' = 70 := by decide
  have h21 : (recv_into (List.replicate 100 (chr 'F')) data).getD 21 0 = chr 'F' := by
    rw [recv_into_short data (by omega), List.getD_eq_getElem?_getD,
      List.getElem?_append_right (by omega), List.getElem?_replicate, if_pos (by omega)]
    rfl
  have hr : (twofactor env appID userID secureID).returncode = .ok 1 := by
    rw [twofactor, twofactorprocessing_eq env appID userID secureID ha hf,
      session_with_success env _ _ data hok hd]
    rw [hF] at h21
    rw [h21]
    rfl
  refine ⟨hr, by rw [hr]; simp, ?_, recv_into_short data (by omega), h21⟩
  refine ⟨_, _, auth_packet_wire _ _ _ _ (by simp) hf, ?_⟩
  rw [hF]
  exact clear_array_eq _ (by simp [auth_wire_length]; omega)

/-- A reply of 21 zero bytes is not an acceptance. -/
theorem short_reply_not_authenticated_witness :
    (twofactor scenario_E (cstr "APP1") (cstr "alice") (cstr "123456")).returncode = .ok 1 :=
  (short_reply_not_authenticated scenario_E (cstr "APP1") (cstr "alice") (cstr "123456")
    (List.replicate 21 0) (by decide) rfl (by decide) (by decide) (by decide)).1

/-- C18: on every 100-byte array `build_header` leaves bytes 0 and 1 and bytes
[14,100) as they were; called after `clear_array`, those bytes hold 'F'. -/
theorem build_header_frame (hdr tid : List Nat) (c : Nat) (hh : hdr.length = 100) :
    (∃ a, build_header hdr tid c = .ok (a, 14) ∧ a.length = 100 ∧
      a.take 2 = hdr.take 2 ∧ a.drop 14 = hdr.drop 14) ∧
    (∃ f a, clear_array hdr = .ok f ∧ build_header f tid c = .ok (a, 14) ∧
      a.take 2 = [chr 'F', chr 'F'] ∧ a.drop 14 = List.replicate 86 (chr 'F')) := by
  have hl := header_bytes_length tid c
  have key : ∀ x : List Nat, x.length = 100 →
      ∃ a, build_header x tid c = .ok (a, 14) ∧ a.length = 100 ∧
        a.take 2 = x.take 2 ∧ a.drop 14 = x.drop 14 := by
    intro x hx
    refine ⟨_, build_header_append x tid c (by omega), ?_, ?_, ?_⟩
    · simp [hl, hx]
    · rw [List.append_assoc]
      exact List.take_left' (by simp [hx])
    · exact List.drop_left' (by simp [hl, hx])
  refine ⟨key hdr hh, ?_⟩
  obtain ⟨a, h1, -, h3, h4⟩ := key (List.replicate 100 70) (by simp)
  refine ⟨_, a, clear_array_eq hdr hh, h1, ?_, ?_⟩
  · rw [h3]; decide
  · rw [h4]; decide

/-- The header written on an array of 'F' leaves 'F' outside [2,14). -/
theorem build_header_frame_witness :
    ∃ a, build_header (List.replicate 100 70) (cstr "123456") (chr '3') = .ok (a, 14) ∧
      a.take 2 = [70, 70] ∧ a.drop 14 = List.replicate 86 70 := by
  obtain ⟨a, h1, -, h3, h4⟩ := (build_header_frame (List.replicate 100 70) (cstr "123456")
    (chr '3') (by decide)).1
  exact ⟨a, h1, h3.trans (by decide), h4.trans (by decide)⟩

end TwoFactor
